import Mathlib

/-!
Verification development for the goldfish radio HAL AT-channel core:
a shallow embedding of `AtResponse::parse` (AtResponse.cpp), the `Parser`
combinator (Parser.h / RadioData.cpp), `AtChannel::Conversation` and
`AtChannel::broadcastResponse` (AtChannel.cpp), and `IdAllocator`
(IdAllocator.h / IdAllocator.cpp), together with theorems settling the
stated behavioural properties.

Byte strings are modelled as `List Char` (the wire format is 8-bit text),
C++ `int`/`int32_t` as `Int` with explicit wrapping or range failure where
the source checks it (`std::from_chars` rejects out-of-range values).
-/

namespace GoldfishRadio

/-- Byte strings of the AT wire protocol, modelled as lists of characters. -/
abbrev Str := List Char

/-- Convenience conversion from a Lean string literal to `Str`. -/
def cs (s : String) : Str := s.toList

/-- `true` for bytes that `char c <= 0x20` accepts on the target ABI, where
`char` is signed: control bytes, space, and bytes `>= 0x80` (negative as
signed char).  Used by `ltrim` (AtResponse.cpp) and `Parser::skip(' ')`. -/
def isSpC (c : Char) : Bool := c.toNat ≤ 32 || c.toNat ≥ 128

/-- `ltrim` of AtResponse.cpp: drop leading bytes `<= 0x20` (as signed char). -/
def ltrim (s : Str) : Str := s.dropWhile isSpC

/-- `std::string_view::find(needle)`: index of the first occurrence of
`needle` in `hay`, or `none` (`npos`). -/
def findSub : Str → Str → Option Nat
  | [], needle => if needle.isEmpty then some 0 else none
  | c :: t, needle =>
    if needle.isPrefixOf (c :: t) then some 0 else (findSub t needle).map (· + 1)

/-- `std::string_view::find(needle, pos)`: first occurrence at index `>= k`. -/
def findSubFrom (hay needle : Str) (k : Nat) : Option Nat :=
  (findSub (hay.drop k) needle).map (· + k)

/-- `substr(a, b - a)`: the slice `[a, b)` of `s`. -/
def subSlice (s : Str) (a b : Nat) : Str := (s.drop a).take (b - a)

/-- Digit value of a character as `std::from_chars` reads it
(`0-9`, `a-z`, `A-Z`); `99` for non-digits so that the validity test
`digitVal c < base` fails. -/
def digitVal (c : Char) : Nat :=
  if '0' ≤ c && c ≤ '9' then c.toNat - 48
  else if 'a' ≤ c && c ≤ 'z' then c.toNat - 97 + 10
  else if 'A' ≤ c && c ≤ 'Z' then c.toNat - 65 + 10
  else 99

/-- Whether `c` is a valid digit in `base` for `std::from_chars`. -/
def isDigitIn (base : Nat) (c : Char) : Bool := digitVal c < base

/-- `std::from_chars(first, last, (int&)v, base)`: optional leading minus,
then a maximal non-empty run of digits; fails (`none`) on no digits or on a
value outside `int32_t` range, otherwise returns the value and the rest of
the input after the consumed prefix. -/
def fromCharsInt (base : Nat) (s : Str) : Option (Int × Str) :=
  let p := match s with
    | '-' :: t => (true, t)
    | _ => (false, s)
  let ds := p.2.takeWhile (isDigitIn base)
  let r := p.2.dropWhile (isDigitIn base)
  if ds.isEmpty then none
  else
    let n : Nat := ds.foldl (fun a c => a * base + digitVal c) 0
    let v : Int := if p.1 then -(n : Int) else (n : Int)
    if v < -2147483648 || 2147483647 < v then none else some (v, r)

/-- The raw `std::from_chars(..., 16)` calls of `CREG::parse` and friends:
on any failure the output variable keeps its previous value `dflt`. -/
def fromCharsHexOr (dflt : Int) (s : Str) : Int :=
  match fromCharsInt 16 s with
  | some (v, _) => v
  | none => dflt

/-! ## The `Parser` combinator (Parser.h, implementation in RadioData.cpp)

`mBegin == nullptr` is the failed state (`matched = false`); `off` tracks
`mBegin - mImmutableBegin` for `consumed()`. -/

structure PState where
  rest : Str
  matched : Bool
  off : Nat
  deriving DecidableEq

def pInit (s : Str) : PState := ⟨s, true, 0⟩

def pFail (p : PState) : PState := { p with matched := false }

/-- `Parser::matchSoFar`. -/
def pMatchSoFar (p : PState) : Bool := p.matched

/-- `Parser::fullMatch`. -/
def pFullMatch (p : PState) : Bool := p.matched && p.rest.isEmpty

/-- `Parser::hasMore`. -/
def pHasMore (p : PState) : Bool := p.matched && !p.rest.isEmpty

/-- `Parser::front`: `char(-1)` (byte `0xFF`) when there is no more input. -/
def pFront (p : PState) : Char :=
  if pHasMore p then p.rest.headD (Char.ofNat 255) else Char.ofNat 255

/-- `Parser::skip(char)`: `skip(' ')` greedily drops bytes `<= ' '` (signed)
and never fails; any other character must match exactly. -/
def pSkipChar (p : PState) (c : Char) : PState :=
  if p.matched then
    if c = ' ' then
      { rest := p.rest.dropWhile isSpC, matched := true,
        off := p.off + (p.rest.takeWhile isSpC).length }
    else
      match p.rest with
      | c' :: r => if c' = c then ⟨r, true, p.off + 1⟩ else pFail p
      | [] => pFail p
  else p

/-- `Parser::skip(const char*)`: the literal must be fully present. -/
def pSkipStr (p : PState) (s : Str) : PState :=
  if p.matched then
    if s.isPrefixOf p.rest then ⟨p.rest.drop s.length, true, p.off + s.length⟩
    else pFail p
  else p

/-- `Parser::operator()(char*)`. -/
def pChar (p : PState) : PState × Char :=
  if p.matched then
    match p.rest with
    | c :: r => (⟨r, true, p.off + 1⟩, c)
    | [] => (pFail p, Char.ofNat 0)
  else (p, Char.ofNat 0)

/-- `Parser::operator()(int*, base)`: fails at end of input or when
`std::from_chars` fails; the returned `Int` is meaningless on failure
(the C++ out-parameter is left unchanged and callers never read it). -/
def pInt (p : PState) (base : Nat) : PState × Int :=
  if p.matched then
    if p.rest.isEmpty then (pFail p, 0)
    else
      match fromCharsInt base p.rest with
      | some (v, r) => (⟨r, true, p.off + (p.rest.length - r.length)⟩, v)
      | none => (pFail p, 0)
  else (p, 0)

/-- `Parser::operator()(string_view* / string*, end)`: capture up to the
first occurrence of `e` (excluded), consume through it; fail if absent. -/
def pUntil (p : PState) (e : Char) : PState × Str :=
  if p.matched then
    match findSub p.rest [e] with
    | some i => (⟨p.rest.drop (i + 1), true, p.off + i + 1⟩, p.rest.take i)
    | none => (pFail p, [])
  else (p, [])

/-- `Parser::remaining`. -/
def pRemaining (p : PState) : PState × Str :=
  if p.matched then (⟨[], true, p.off + p.rest.length⟩, p.rest) else (p, [])

/-- `Parser::consumed`. -/
def pConsumed (p : PState) : Int := if p.matched then (p.off : Int) else -1

/-! ## hexbin (hexbin.h, implementation with the codec helpers) -/

/-- `hex2bin1`: nibble value of a hex digit, `0` for anything else. -/
def hex2bin1 (c : Char) : Nat :=
  if '0' ≤ c && c ≤ '9' then c.toNat - 48
  else if 'a' ≤ c && c ≤ 'f' then c.toNat - 97 + 10
  else if 'A' ≤ c && c ≤ 'F' then c.toNat - 65 + 10
  else 0

/-- `hex2binImpl`: consecutive pairs of hex digits to bytes. -/
def hex2binImpl : Str → List Nat
  | a :: b :: t => (hex2bin1 a * 16 + hex2bin1 b) :: hex2binImpl t
  | _ => []

/-- `hex2bin`: fails only on odd input length. -/
def hex2bin (hex : Str) : Option (List Nat) :=
  if hex.length % 2 = 1 then none else some (hex2binImpl hex)

/-! ## The response data model (AtResponse.h)

Enum-typed fields produced by `static_cast<Enum>(int)` keep their raw
integer value and are modelled as `Int`. -/

/-- The subset of `RadioError` values produced by `CmeError::parse`. -/
inductive RadioError where
  | OPERATION_NOT_ALLOWED | REQUEST_NOT_SUPPORTED | SIM_ABSENT
  | SIM_PIN2 | SIM_PUK2 | SIM_BUSY | PASSWORD_INCORRECT | SIM_FULL
  | INVALID_ARGUMENTS | NO_SUCH_ELEMENT | GENERIC_FAILURE
  | NO_NETWORK_FOUND | NETWORK_REJECT
  deriving DecidableEq

/-- `AtResponse::CPIN::State`. -/
inductive CpinState where
  | ABSENT | NOT_READY | READY | PIN | PUK
  deriving DecidableEq

/-- `modem::RadioState` as used by `CFUN::parse`. -/
inductive RadioState where
  | OFF | ON
  deriving DecidableEq

/-- Common field set of the CREG / CGREG / CEREG variants; `state` and
`networkType` hold the raw integers that the source casts to enums. -/
structure RegFields where
  areaCode : Int := -1
  cellId : Int := -1
  networkType : Int := -1
  state : Int := 0
  deriving DecidableEq

/-- `COPS::OperatorInfo` (`state` is the raw enum integer;
`CURRENT` is `2`). -/
structure OperatorInfo where
  state : Int := 0
  longName : Str := []
  shortName : Str := []
  numeric : Str := []
  deriving DecidableEq

/-- The fields of `voice::Call` that `CLCC::parse` populates. -/
structure Call where
  state : Int
  index : Int
  toa : Int
  isMpty : Bool
  isMT : Bool
  isVoice : Bool
  number : Str
  deriving DecidableEq

/-- The fields of `voice::CallForwardInfo` that `CCFCU::parse` populates. -/
structure CallForwardInfo where
  status : Int := 0
  serviceClass : Int := 0
  toa : Int := 0
  number : Str := []
  timeSeconds : Int := 0
  deriving DecidableEq

/-- `CGDCONT::PdpContext`. -/
structure PdpContext where
  type : Str := []
  apn : Str := []
  addr : Str := []
  index : Int := -1
  dComp : Int := 0
  hComp : Int := 0
  deriving DecidableEq

/-- `kUnknown` compared against by `CSQ::parse`.  Its declaration is not in
the captured sources; modelled as `INT32_MAX`, the initializer of every
`CSQ` field. -/
def kUnknown : Int := 2147483647

/-- The `CSQ` field block (all fields default `INT32_MAX`). -/
structure CsqFields where
  gsm_signalStrength : Int := 2147483647
  gsm_bitErrorRate : Int := 2147483647
  gsm_timingAdvance : Int := 2147483647
  cdma_dbm : Int := 2147483647
  cdma_ecio : Int := 2147483647
  evdo_dbm : Int := 2147483647
  evdo_ecio : Int := 2147483647
  evdo_signalNoiseRatio : Int := 2147483647
  lte_signalStrength : Int := 2147483647
  lte_rsrp : Int := 2147483647
  lte_rsrq : Int := 2147483647
  lte_rssnr : Int := 2147483647
  lte_cqi : Int := 2147483647
  lte_timingAdvance : Int := 2147483647
  lte_cqiTableIndex : Int := 2147483647
  tdscdma_signalStrength : Int := 2147483647
  tdscdma_bitErrorRate : Int := 2147483647
  tdscdma_rscp : Int := 2147483647
  wcdma_signalStrength : Int := 2147483647
  wcdma_bitErrorRate : Int := 2147483647
  wcdma_rscp : Int := 2147483647
  wcdma_ecno : Int := 2147483647
  nr_ssRsrp : Int := 2147483647
  nr_ssRsrq : Int := 2147483647
  nr_ssSinr : Int := 2147483647
  nr_csiRsrp : Int := 2147483647
  nr_csiRsrq : Int := 2147483647
  nr_csiSinr : Int := 2147483647
  nr_csiCqiTableIndex : Int := 2147483647
  nr_timingAdvance : Int := 2147483647
  deriving DecidableEq

/-- The closed tagged union `AtResponse` (the `std::variant` of
AtResponse.h).  `ParseError` carries the tag string of the command whose
payload failed to decode; `str` is the generic free-text variant.
The `CLIP`/`CLIR`/`CMUT`/`WSOS` member declarations are missing from the
captured header; their fields follow their `parse` functions in
AtResponse.cpp. -/
inductive AtResponse where
  | OK
  | ERROR
  | RING
  | SmsPrompt
  | ParseError (cmd : Str)
  | CmeError (error : RadioError)
  | CmsError (message : Str)
  | CPIN (state : CpinState)
  | CPINR (remainingRetryTimes maxRetryTimes : Int)
  | CRSM (sw1 sw2 : Int) (response : Str)
  | CFUN (state : RadioState)
  | CREG (f : RegFields)
  | CEREG (f : RegFields)
  | CGREG (f : RegFields)
  | CTEC (values : List Str)
  | COPS (operators : List OperatorInfo) (numeric : Str)
         (networkSelectionMode : Int)
  | WRMP (cdmaRoamingPreference : Int)
  | CCSS (source : Int)
  | CSQ (f : CsqFields)
  | CLCC (calls : List Call)
  | CCFCU (callForwardInfos : List CallForwardInfo)
  | CCWA (serviceClass : Int) (enable : Bool)
  | CGDCONT (contexts : List PdpContext)
  | CGCONTRDP (apn localAddr gwAddr dns1 dns2 : Str)
              (cid bearer localAddrSize : Int)
  | CGFPCCFG (status mtech contextId bandwidth freq : Int)
  | CUSATD (a b : Int)
  | CUSATP (cmd : Str)
  | CUSATE (response : Str)
  | CUSATT (value : Int)
  | CUSATEND
  | CLCK (locked : Bool)
  | CSIM (response : Str)
  | CCHC
  | CLIP (enable : Bool) (status : Int)
  | CLIR (n m : Int)
  | CMUT (muteOn : Bool)  -- source field name `on` is a Lean keyword
  | WSOS (isEmergencyMode : Bool)
  | CSCA (sca : Str) (tosca : Int)
  | CSCB (serviceId codeScheme : List (Int × Int)) (mode : Int)
  | CMGS (messageRef : Int)
  | CMGW (messageRef : Int)
  | CMT (something : Int) (pdu : List Nat)
  | CDS (pduSize : Int) (pdu : List Nat)
  | MBAU (status : Int) (kc sres ck ik resAuts : List Nat)
  | CTZV (tzName : Str)
         (year month day hour isDaylightSaving minute second tzOffset15m : Int)
  | str (value : Str)
  deriving DecidableEq

/-! ## Integer wrapping casts used by `CTZV::parse` -/

def u8 (v : Int) : Int := v.emod 256
def u16 (v : Int) : Int := v.emod 65536
def u7 (v : Int) : Int := v.emod 128
def i8 (v : Int) : Int := (v + 128).emod 256 - 128

/-! ## Payload parsers (AtResponse.cpp) -/

/-- `CmeError::parse`: numeric CME codes (atCmds.h) to `RadioError`. -/
def AtResponse.CmeError.parse (s : Str) : AtResponse :=
  .CmeError (
    if s = cs ("3") then .OPERATION_NOT_ALLOWED
    else if s = cs ("4") then .REQUEST_NOT_SUPPORTED
    else if s = cs ("10") then .SIM_ABSENT
    else if s = cs ("11") then .SIM_PIN2
    else if s = cs ("12") then .SIM_PUK2
    else if s = cs ("14") then .SIM_BUSY
    else if s = cs ("16") then .PASSWORD_INCORRECT
    else if s = cs ("20") then .SIM_FULL
    else if s = cs ("21") then .INVALID_ARGUMENTS
    else if s = cs ("22") then .NO_SUCH_ELEMENT
    else if s = cs ("27") then .GENERIC_FAILURE
    else if s = cs ("30") then .NO_NETWORK_FOUND
    else if s = cs ("32") then .NETWORK_REJECT
    else if s = cs ("50") then .INVALID_ARGUMENTS
    else if s = cs ("53") then .NETWORK_REJECT
    else if s = cs ("56") then .GENERIC_FAILURE
    else .GENERIC_FAILURE)

/-- `CmsError::parse`: never fails, keeps the raw message. -/
def AtResponse.CmsError.parse (s : Str) : AtResponse := .CmsError s

/-- `CPIN::parse`. -/
def AtResponse.CPIN.parse (s : Str) : AtResponse :=
  if s = cs ("READY") then .CPIN .READY
  else if s = cs ("SIM PIN") then .CPIN .PIN
  else if s = cs ("SIM PUK") then .CPIN .PUK
  else .ParseError (cs ("CPIN"))

/-- `CPINR::parse`; note `makeParseErrorFor<CPINR>` carries
`CPINR::id() = "CPIN"`. -/
def AtResponse.CPINR.parse (s : Str) : AtResponse :=
  let p0 := pInit s
  let r1 := pUntil p0 ','
  let r2 := pInt r1.1 10
  let p3 := pSkipChar r2.1 ','
  let r4 := pInt p3 10
  let p5 := pSkipChar r4.1 ','
  if pFullMatch p5 then .CPINR r2.2 r4.2 else .ParseError (cs ("CPIN"))

/-- `CRSM::parse`. -/
def AtResponse.CRSM.parse (s : Str) : AtResponse :=
  let p0 := pInit s
  let r1 := pInt p0 10
  let p2 := pSkipChar r1.1 ','
  let r3 := pInt p2 10
  if pHasMore r3.1 then
    let p4 := pSkipChar r3.1 ','
    if pMatchSoFar p4 then
      let r5 := pRemaining p4
      .CRSM r1.2 r3.2 r5.2
    else .ParseError (cs ("CRSM"))
  else if !(pFullMatch r3.1) then .ParseError (cs ("CRSM"))
  else .CRSM r1.2 r3.2 []

/-- `CFUN::parse`. -/
def AtResponse.CFUN.parse (s : Str) : AtResponse :=
  let r1 := pInt (pInit s) 10
  if pFullMatch r1.1 then .CFUN (if r1.2 ≠ 0 then .ON else .OFF)
  else .ParseError (cs ("CFUN"))

/-- Common body of `CREG::parse`, `CGREG::parse` and `CEREG::parse`
(three textually identical functions in the source), switching on the
comma count of the payload; `none` maps to the caller's `ParseError`. -/
def parseRegPayload (s : Str) : Option RegFields :=
  let p0 := pInit s
  match s.count ',' with
  | 0 =>
    let r1 := pInt p0 10
    if pFullMatch r1.1 then some { state := r1.2 } else none
  | 1 =>
    let r1 := pInt p0 10
    let p2 := pSkipChar r1.1 ','
    let r3 := pInt p2 10
    if pFullMatch r3.1 then some { state := r3.2 } else none
  | 3 =>
    let r1 := pInt p0 10
    let p2 := pSkipChar (pSkipChar r1.1 ',') '"'
    let r3 := pUntil p2 '"'
    let p4 := pSkipChar (pSkipChar r3.1 ',') '"'
    let r5 := pUntil p4 '"'
    let p6 := pSkipChar r5.1 ','
    let r7 := pInt p6 10
    if pFullMatch r7.1 then
      some { areaCode := fromCharsHexOr (-1) r3.2,
             cellId := fromCharsHexOr (-1) r5.2,
             networkType := r7.2, state := r1.2 }
    else none
  | 4 =>
    let r0 := pInt p0 10
    let p1 := pSkipChar r0.1 ','
    let r1 := pInt p1 10
    let p2 := pSkipChar (pSkipChar r1.1 ',') '"'
    let r3 := pUntil p2 '"'
    let p4 := pSkipChar (pSkipChar r3.1 ',') '"'
    let r5 := pUntil p4 '"'
    let p6 := pSkipChar r5.1 ','
    let r7 := pInt p6 10
    if pFullMatch r7.1 then
      some { areaCode := fromCharsHexOr (-1) r3.2,
             cellId := fromCharsHexOr (-1) r5.2,
             networkType := r7.2, state := r1.2 }
    else none
  | _ => none

/-- `CREG::parse`. -/
def AtResponse.CREG.parse (s : Str) : AtResponse :=
  match parseRegPayload s with
  | some f => .CREG f
  | none => .ParseError (cs ("CREG"))

/-- `CEREG::parse`. -/
def AtResponse.CEREG.parse (s : Str) : AtResponse :=
  match parseRegPayload s with
  | some f => .CEREG f
  | none => .ParseError (cs ("CEREG"))

/-- `CGREG::parse`. -/
def AtResponse.CGREG.parse (s : Str) : AtResponse :=
  match parseRegPayload s with
  | some f => .CGREG f
  | none => .ParseError (cs ("CGREG"))

/-- `CTEC::parse`: split the payload at commas; never fails. -/
def AtResponse.CTEC.parse (s : Str) : AtResponse := .CTEC (s.splitOn ',')

/-- The `while (parser.matchSoFar())` loop of `COPS::parse` for the
parenthesized operator-list form.  Fuel bounds the iteration count; every
successful iteration consumes at least one byte, so `s.length + 1` fuel is
never exhausted. -/
def copsOperLoop : Nat → PState → List OperatorInfo → AtResponse
  | 0, _, _ => .ParseError (cs ("COPS"))
  | fuel + 1, p, acc =>
    if pMatchSoFar p then
      let q1 := pSkipChar p '('
      let r2 := pInt q1 10
      let q3 := pSkipChar r2.1 ','
      let r4 := pUntil q3 ','
      let r5 := pUntil r4.1 ','
      let r6 := pUntil r5.1 ')'
      if pMatchSoFar r6.1 then
        let acc' := acc ++ [{ state := r2.2, longName := r4.2,
                              shortName := r5.2, numeric := r6.2 }]
        if pFront r6.1 = ',' then copsOperLoop fuel (pSkipChar r6.1 ',') acc'
        else .COPS acc' [] 0
      else .ParseError (cs ("COPS"))
    else .COPS acc [] 0

/-- `COPS::parse`. -/
def AtResponse.COPS.parse (s : Str) : AtResponse :=
  let p0 := pSkipChar (pSkipStr (pInit s) (cs ("+COPS:"))) ' '
  if !(pHasMore p0) then .ParseError (cs ("COPS"))
  else if pFront p0 = '(' then copsOperLoop (s.length + 1) p0 []
  else
    let r1 := pInt p0 10
    let p2 := pSkipChar r1.1 ','
    let r3 := pInt p2 10
    let p4 := pSkipChar r3.1 ','
    let r5 := pUntil p4 '\r'
    if !(pMatchSoFar r5.1) then .ParseError (cs ("COPS"))
    else if (r3.2 == 2) && pFullMatch r5.1 then .COPS [] r5.2 r1.2
    else if r3.2 ≠ 0 then .ParseError (cs ("COPS"))
    else if (r5.2 == cs ("0")) && pFullMatch r5.1 then .COPS [] [] r1.2
    else
      let q1 := pSkipStr (pSkipChar (pSkipStr r5.1 (cs ("+COPS:"))) ' ')
                         (cs ("0,1,"))
      let r2 := pUntil q1 '\r'
      let q3 := pSkipStr (pSkipChar (pSkipStr r2.1 (cs ("+COPS:"))) ' ')
                         (cs ("0,2,"))
      let r4 := pUntil q3 '\r'
      if pFullMatch r4.1 then
        .COPS [{ state := 2, longName := r5.2, shortName := r2.2,
                 numeric := r4.2 }] [] 0
      else .ParseError (cs ("COPS"))

/-- `WRMP::parse`. -/
def AtResponse.WRMP.parse (s : Str) : AtResponse :=
  let r1 := pInt (pInit s) 10
  if pFullMatch r1.1 then .WRMP r1.2 else .ParseError (cs ("WRMP"))

/-- `CCSS::parse`. -/
def AtResponse.CCSS.parse (s : Str) : AtResponse :=
  let r1 := pInt (pInit s) 10
  if pFullMatch r1.1 then .CCSS r1.2 else .ParseError (cs ("CCSS"))

/-- The `for (n = 1; parser.hasMore() && (n < 22); ++n)` loop of
`CSQ::parse`; fuel is `22 - acc.length`. -/
def csqLoop : Nat → PState → List Int → Option (PState × List Int)
  | 0, p, acc => some (p, acc)
  | fuel + 1, p, acc =>
    if pHasMore p then
      let p1 := pSkipChar p ','
      let r2 := pInt p1 10
      if pMatchSoFar r2.1 then csqLoop fuel r2.1 (acc ++ [r2.2]) else none
    else some (p, acc)

/-- `case 12` of the `CSQ::parse` switch (the shared tail of every case). -/
def csqFrom12 (vs : List Int) : CsqFields :=
  { gsm_signalStrength := vs.getD 0 0, gsm_bitErrorRate := vs.getD 1 0,
    cdma_dbm := vs.getD 2 0, cdma_ecio := vs.getD 3 0,
    evdo_dbm := vs.getD 4 0, evdo_ecio := vs.getD 5 0,
    evdo_signalNoiseRatio := vs.getD 6 0,
    lte_signalStrength := vs.getD 7 0, lte_rsrp := vs.getD 8 0,
    lte_rsrq := vs.getD 9 0, lte_rssnr := vs.getD 10 0,
    lte_cqi := vs.getD 11 0 }

/-- `case 13` (falls through to 12). -/
def csqFrom13 (vs : List Int) : CsqFields :=
  { csqFrom12 vs with lte_timingAdvance := vs.getD 12 0 }

/-- `case 14` (falls through to 13). -/
def csqFrom14 (vs : List Int) : CsqFields :=
  { csqFrom13 vs with tdscdma_rscp := vs.getD 13 0 }

/-- `case 22` (falls through to 14). -/
def csqFrom22 (vs : List Int) : CsqFields :=
  let w := vs.getD 14 0
  { csqFrom14 vs with
    wcdma_signalStrength := w,
    wcdma_rscp := if w ≠ kUnknown then 42 else 2147483647,
    wcdma_ecno := if w ≠ kUnknown then 19 else 2147483647,
    wcdma_bitErrorRate := vs.getD 15 0,
    nr_ssRsrp := vs.getD 16 0, nr_ssRsrq := vs.getD 17 0,
    nr_ssSinr := vs.getD 18 0, nr_csiRsrp := vs.getD 19 0,
    nr_csiRsrq := vs.getD 20 0, nr_csiSinr := vs.getD 21 0 }

/-- `CSQ::parse`. -/
def AtResponse.CSQ.parse (s : Str) : AtResponse :=
  let r1 := pInt (pInit s) 10
  if !(pMatchSoFar r1.1) then .ParseError (cs ("CSQ"))
  else
    match csqLoop 21 r1.1 [r1.2] with
    | none => .ParseError (cs ("CSQ"))
    | some (p, vs) =>
      if !(pFullMatch p) then .ParseError (cs ("CSQ"))
      else if vs.length = 12 then .CSQ (csqFrom12 vs)
      else if vs.length = 13 then .CSQ (csqFrom13 vs)
      else if vs.length = 14 then .CSQ (csqFrom14 vs)
      else if vs.length = 22 then .CSQ (csqFrom22 vs)
      else .ParseError (cs ("CSQ"))

/-- The `while (parser.hasMore())` loop of `CLCC::parse`, one
`+CLCC: <index>,<dir>,<state>,<mode>,<mpty>,<number>,<type>\r` line per
iteration.  Every successful iteration consumes at least one byte. -/
def clccLoop : Nat → PState → List Call → AtResponse
  | 0, _, _ => .ParseError (cs ("CLCC"))
  | fuel + 1, p, acc =>
    if pHasMore p then
      let q0 := pSkipChar (pSkipStr p (cs ("+CLCC:"))) ' '
      let r1 := pInt q0 10
      let q2 := pSkipChar r1.1 ','
      let r3 := pInt q2 10
      let q4 := pSkipChar r3.1 ','
      let r5 := pInt q4 10
      let q6 := pSkipChar r5.1 ','
      let r7 := pInt q6 10
      let q8 := pSkipChar r7.1 ','
      let r9 := pInt q8 10
      let q10 := pSkipChar r9.1 ','
      let r11 := pUntil q10 ','
      let r12 := pInt r11.1 10
      let q13 := pSkipChar r12.1 '\r'
      if pMatchSoFar q13 then
        clccLoop fuel q13
          (acc ++ [{ state := r5.2, index := r1.2, toa := r12.2,
                     isMpty := r9.2 ≠ 0, isMT := r3.2 ≠ 0,
                     isVoice := r7.2 = 0, number := r11.2 }])
      else .ParseError (cs ("CLCC"))
    else .CLCC acc

/-- `CLCC::parse`. -/
def AtResponse.CLCC.parse (s : Str) : AtResponse :=
  clccLoop (s.length + 1) (pInit s) []

/-- The `while (parser.hasMore())` loop of `CCFCU::parse`. -/
def ccfcuLoop : Nat → PState → List CallForwardInfo → AtResponse
  | 0, _, _ => .ParseError (cs ("CCFCU"))
  | fuel + 1, p, acc =>
    if pHasMore p then
      let q0 := pSkipChar (pSkipStr p (cs ("+CCFCU:"))) ' '
      let r1 := pInt q0 10
      let q2 := pSkipChar r1.1 ','
      let r3 := pInt q2 10
      let q4 := pSkipChar r3.1 ','
      let r5 := pInt q4 10
      let q6 := pSkipChar r5.1 ','
      let r7 := pInt q6 10
      let q8 := pSkipChar (pSkipChar r7.1 ',') '"'
      let r9 := pUntil q8 '"'
      if pMatchSoFar r9.1 then
        if pFront r9.1 = ',' then
          let t1 := pSkipChar r9.1 ','
          let t2 := pUntil t1 ','
          let t3 := pUntil t2.1 ','
          let t4 := pUntil t3.1 ','
          let t5 := pInt t4.1 10
          let t6 := pSkipChar t5.1 '\r'
          if pMatchSoFar t6 then
            ccfcuLoop fuel t6
              (acc ++ [{ status := r1.2, serviceClass := r3.2, toa := r7.2,
                         number := r9.2, timeSeconds := t5.2 }])
          else .ParseError (cs ("CCFCU"))
        else if pFront r9.1 = '\r' then
          ccfcuLoop fuel (pSkipChar r9.1 '\r')
            (acc ++ [{ status := r1.2, serviceClass := r3.2, toa := r7.2,
                       number := r9.2, timeSeconds := 0 }])
        else .ParseError (cs ("CCFCU"))
      else .ParseError (cs ("CCFCU"))
    else .CCFCU acc

/-- `CCFCU::parse`. -/
def AtResponse.CCFCU.parse (s : Str) : AtResponse :=
  ccfcuLoop (s.length + 1) (pInit s) []

/-- `CCWA::parse`. -/
def AtResponse.CCWA.parse (s : Str) : AtResponse :=
  let r1 := pInt (pInit s) 10
  let p2 := pSkipChar r1.1 ','
  let r3 := pInt p2 10
  if pFullMatch r3.1 then .CCWA r3.2 (r1.2 = 1)
  else .ParseError (cs ("CCWA"))

/-- The `while (parser.hasMore())` loop of `CGDCONT::parse`. -/
def cgdcontLoop : Nat → PState → List PdpContext → AtResponse
  | 0, _, _ => .ParseError (cs ("CGDCONT"))
  | fuel + 1, p, acc =>
    if pHasMore p then
      let q0 := pSkipChar (pSkipStr p (cs ("+CGDCONT:"))) ' '
      let r1 := pInt q0 10
      let q2 := pSkipChar (pSkipChar r1.1 ',') '"'
      let r3 := pUntil q2 '"'
      let q4 := pSkipChar (pSkipChar r3.1 ',') '"'
      let r5 := pUntil q4 '"'
      let q6 := pSkipChar r5.1 ','
      let r7 := pUntil q6 ','
      let r8 := pInt r7.1 10
      let q9 := pSkipChar r8.1 ','
      let r10 := pInt q9 10
      let q11 := pSkipChar r10.1 ' '
      if pMatchSoFar q11 then
        cgdcontLoop fuel q11
          (acc ++ [{ type := r3.2, apn := r5.2, addr := r7.2,
                     index := r1.2, dComp := r8.2, hComp := r10.2 }])
      else .ParseError (cs ("CGDCONT"))
    else .CGDCONT acc

/-- `CGDCONT::parse`. -/
def AtResponse.CGDCONT.parse (s : Str) : AtResponse :=
  cgdcontLoop (s.length + 1) (pInit s) []

/-- `CGCONTRDP::parse`. -/
def AtResponse.CGCONTRDP.parse (s : Str) : AtResponse :=
  let p0 := pInit s
  let r1 := pInt p0 10
  let p2 := pSkipChar r1.1 ','
  let r3 := pInt p2 10
  let p4 := pSkipChar (pSkipChar r3.1 ',') '"'
  let r5 := pUntil p4 '"'
  let p6 := pSkipChar r5.1 ','
  let r7 := pUntil p6 ','
  let r8 := pUntil r7.1 ','
  if pMatchSoFar r8.1 then
    let r9 := pRemaining r8.1
    let q1 := pUntil (pInit r7.2) '/'
    let q2 := pInt q1.1 10
    if pFullMatch q2.1 then
      .CGCONTRDP r5.2 q1.2 r8.2 r9.2 [] r1.2 r3.2 q2.2
    else
      .CGCONTRDP r5.2 r7.2 r8.2 r9.2 [] r1.2 r3.2 0
  else .ParseError (cs ("CGCONTRDP"))

/-- `CGFPCCFG::parse` (payload order: status, bandwidth, mtech, freq,
contextId). -/
def AtResponse.CGFPCCFG.parse (s : Str) : AtResponse :=
  let r1 := pInt (pInit s) 10
  let p2 := pSkipChar r1.1 ','
  let r3 := pInt p2 10
  let p4 := pSkipChar r3.1 ','
  let r5 := pInt p4 10
  let p6 := pSkipChar r5.1 ','
  let r7 := pInt p6 10
  let p8 := pSkipChar r7.1 ','
  let r9 := pInt p8 10
  if pFullMatch r9.1 then .CGFPCCFG r1.2 r5.2 r9.2 r3.2 r7.2
  else .ParseError (cs ("CGFPCCFG"))

/-- `CUSATD::parse`; the source reads both integers into `cusatd.a`
(`b` keeps its initializer `0`). -/
def AtResponse.CUSATD.parse (s : Str) : AtResponse :=
  let r1 := pInt (pInit s) 10
  let p2 := pSkipChar (pSkipChar r1.1 ',') ' '
  let r3 := pInt p2 10
  if pFullMatch r3.1 then .CUSATD r3.2 0 else .ParseError (cs ("CUSATD"))

/-- `CUSATP::parse`. -/
def AtResponse.CUSATP.parse (s : Str) : AtResponse := .CUSATP s

/-- `CUSATE::parse`. -/
def AtResponse.CUSATE.parse (s : Str) : AtResponse := .CUSATE s

/-- `CUSATT::parse`. -/
def AtResponse.CUSATT.parse (s : Str) : AtResponse :=
  let r1 := pInt (pInit s) 10
  if pFullMatch r1.1 then .CUSATT r1.2 else .ParseError (cs ("CUSATT"))

/-- `CUSATEND::parse`. -/
def AtResponse.CUSATEND.parse (_s : Str) : AtResponse := .CUSATEND

/-- `CLCK::parse`: switch on the first payload byte (`front()` of an empty
payload is undefined behaviour in the source; modelled as the error arm). -/
def AtResponse.CLCK.parse (s : Str) : AtResponse :=
  match s with
  | '0' :: _ => .CLCK false
  | '1' :: _ => .CLCK true
  | _ => .ParseError (cs ("CLCK"))

/-- `CSIM::parse`. -/
def AtResponse.CSIM.parse (s : Str) : AtResponse :=
  let r1 := pInt (pInit s) 10
  let p2 := pSkipChar r1.1 ','
  if pMatchSoFar p2 then
    let r3 := pRemaining p2
    if r1.2 = (r3.2.length : Int) then .CSIM r3.2
    else .ParseError (cs ("CSIM"))
  else .ParseError (cs ("CSIM"))

/-- `CCHC::parse`. -/
def AtResponse.CCHC.parse (_s : Str) : AtResponse := .CCHC

/-- `CLIP::parse`. -/
def AtResponse.CLIP.parse (s : Str) : AtResponse :=
  let r1 := pInt (pInit s) 10
  let p2 := pSkipChar r1.1 ','
  let r3 := pInt p2 10
  if pFullMatch r3.1 then .CLIP (r1.2 ≠ 0) r3.2
  else .ParseError (cs ("CLIP"))

/-- `CLIR::parse`. -/
def AtResponse.CLIR.parse (s : Str) : AtResponse :=
  let r1 := pInt (pInit s) 10
  let p2 := pSkipChar r1.1 ','
  let r3 := pInt p2 10
  if pFullMatch r3.1 then .CLIR r1.2 r3.2
  else .ParseError (cs ("CLIR"))

/-- `CMUT::parse`. -/
def AtResponse.CMUT.parse (s : Str) : AtResponse :=
  let r1 := pInt (pInit s) 10
  if pFullMatch r1.1 then .CMUT (r1.2 ≠ 0) else .ParseError (cs ("CMUT"))

/-- `WSOS::parse`. -/
def AtResponse.WSOS.parse (s : Str) : AtResponse :=
  let r1 := pInt (pInit s) 10
  if pFullMatch r1.1 then .WSOS (r1.2 ≠ 0) else .ParseError (cs ("WSOS"))

/-- `CSCA::parse`. -/
def AtResponse.CSCA.parse (s : Str) : AtResponse :=
  let r1 := pUntil (pInit s) ','
  let r2 := pInt r1.1 10
  if pFullMatch r2.1 then .CSCA r1.2 r2.2 else .ParseError (cs ("CSCA"))

/-- The `while (parser.hasMore())` loop of `CSCB::parseIds`.  Note the
source drops a plain `from` id that is followed by a comma (only
`from-to` ranges and the final id are pushed). -/
def parseIdsLoop : Nat → PState → List (Int × Int) → Option (List (Int × Int))
  | 0, _, _ => none
  | fuel + 1, p, acc =>
    if pHasMore p then
      let r1 := pInt p 10
      if !(pMatchSoFar r1.1) then none
      else if pFullMatch r1.1 then some (acc ++ [(r1.2, r1.2)])
      else if pFront r1.1 = '-' then
        let q2 := pSkipChar r1.1 '-'
        let r3 := pInt q2 10
        if !(pMatchSoFar r3.1) then none
        else
          let acc' := acc ++ [(r1.2, r3.2)]
          if pFullMatch r3.1 then parseIdsLoop fuel r3.1 acc'
          else if pFront r3.1 = ',' then
            parseIdsLoop fuel (pSkipChar r3.1 ',') acc'
          else none
      else if pFront r1.1 = ',' then parseIdsLoop fuel (pSkipChar r1.1 ',') acc
      else none
    else some acc

/-- `CSCB::parseIds`. -/
def AtResponse.CSCB.parseIds (s : Str) : Option (List (Int × Int)) :=
  parseIdsLoop (s.length + 1) (pInit s) []

/-- `CSCB::parse`. -/
def AtResponse.CSCB.parse (s : Str) : AtResponse :=
  let r1 := pInt (pInit s) 10
  let p2 := pSkipChar (pSkipChar r1.1 ',') '"'
  let r3 := pUntil p2 '"'
  let p4 := pSkipChar (pSkipChar r3.1 ',') '"'
  let r5 := pUntil p4 '"'
  if pFullMatch r5.1 then
    match AtResponse.CSCB.parseIds r3.2, AtResponse.CSCB.parseIds r5.2 with
    | some sids, some css => .CSCB sids css r1.2
    | _, _ => .ParseError (cs ("CSCB"))
  else .ParseError (cs ("CSCB"))

/-- `CMGS::parse`. -/
def AtResponse.CMGS.parse (s : Str) : AtResponse :=
  let r1 := pInt (pInit s) 10
  if pFullMatch r1.1 then .CMGS r1.2 else .ParseError (cs ("CMGS"))

/-- `CMGW::parse`; the source's error arm calls `makeParseErrorFor<CMGS>`
(sic), so the carried tag is `"CMGS"`. -/
def AtResponse.CMGW.parse (s : Str) : AtResponse :=
  let r1 := pInt (pInit s) 10
  if pFullMatch r1.1 then .CMGW r1.2 else .ParseError (cs ("CMGS"))

/-- `CMT::parse` (two-stage: numeric header line, then hex PDU line). -/
def AtResponse.CMT.parse (s : Str) : Int × Option AtResponse :=
  let r1 := pInt (pInit s) 10
  let p2 := pSkipChar r1.1 '\r'
  if pMatchSoFar p2 then
    let r3 := pUntil p2 '\r'
    if pMatchSoFar r3.1 then
      match hex2bin r3.2 with
      | some pdu => (pConsumed r3.1, some (.CMT r1.2 pdu))
      | none => (-1, some (.ParseError (cs ("CMT"))))
    else (0, none)
  else (-1, some (.ParseError (cs ("CMT"))))

/-- `CDS::parse`. -/
def AtResponse.CDS.parse (s : Str) : Int × Option AtResponse :=
  let r1 := pInt (pInit s) 10
  let p2 := pSkipChar r1.1 '\r'
  if pMatchSoFar p2 then
    let r3 := pUntil p2 '\r'
    if pMatchSoFar r3.1 then
      match hex2bin r3.2 with
      | some pdu => (pConsumed r3.1, some (.CDS r1.2 pdu))
      | none => (-1, some (.ParseError (cs ("CDS"))))
    else (0, none)
  else (-1, some (.ParseError (cs ("CDS"))))

/-- `MBAU::parse`, switching on the comma count
(`<STATUS>[,<KC>,<SRES>][,<CK>,<IK>,<RES/AUTS>]`). -/
def AtResponse.MBAU.parse (s : Str) : AtResponse :=
  let p0 := pInit s
  match s.count ',' with
  | 0 =>
    let r1 := pInt p0 10
    if pFullMatch r1.1 then .MBAU r1.2 [] [] [] [] []
    else .ParseError (cs ("MBAU"))
  | 2 =>
    let r1 := pInt p0 10
    let p2 := pSkipChar r1.1 ','
    let r3 := pUntil p2 ','
    if pMatchSoFar r3.1 then
      let r4 := pRemaining r3.1
      match hex2bin r3.2, hex2bin r4.2 with
      | some kc, some sres => .MBAU r1.2 kc sres [] [] []
      | _, _ => .ParseError (cs ("MBAU"))
    else .ParseError (cs ("MBAU"))
  | 5 =>
    let r1 := pInt p0 10
    let p2 := pSkipChar r1.1 ','
    let r3 := pUntil p2 ','
    let r4 := pUntil r3.1 ','
    let r5 := pUntil r4.1 ','
    let r6 := pUntil r5.1 ','
    if pMatchSoFar r6.1 then
      let r7 := pRemaining r6.1
      match hex2bin r3.2, hex2bin r4.2, hex2bin r5.2,
            hex2bin r6.2, hex2bin r7.2 with
      | some kc, some sres, some ck, some ik, some resAuts =>
        .MBAU r1.2 kc sres ck ik resAuts
      | _, _, _, _, _ => .ParseError (cs ("MBAU"))
    else .ParseError (cs ("MBAU"))
  | _ => .ParseError (cs ("MBAU"))

/-- `CTZV::parse` (`yy/mm/dd:hh:mm:ss[+-]tz:dl:zoneName`), with the
source's integer-narrowing casts made explicit. -/
def AtResponse.CTZV.parse (s : Str) : AtResponse :=
  let p0 := pSkipChar (pInit s) ' '
  let r1 := pInt p0 10
  let p2 := pSkipChar r1.1 '/'
  let r3 := pInt p2 10
  let p4 := pSkipChar r3.1 '/'
  let r5 := pInt p4 10
  let p6 := pSkipChar r5.1 ':'
  let r7 := pInt p6 10
  let p8 := pSkipChar r7.1 ':'
  let r9 := pInt p8 10
  let p10 := pSkipChar r9.1 ':'
  let r11 := pInt p10 10
  let r12 := pChar r11.1
  let r13 := pInt r12.1 10
  let p14 := pSkipChar r13.1 ':'
  let r15 := pChar p14
  let p16 := pSkipChar r15.1 ':'
  if !(pMatchSoFar p16) then .ParseError (cs ("CTZV"))
  else if r12.2 = '+' || r12.2 = '-' then
    let tzOff := if r12.2 = '-' then -r13.2 else r13.2
    let r17 := pRemaining p16
    .CTZV r17.2 (u16 (r1.2 + 2000)) (u8 r3.2) (u8 r5.2) (u7 r7.2)
          (if r15.2 ≠ '0' then 1 else 0) (u8 r9.2) (u8 r11.2) (i8 tzOff)
  else .ParseError (cs ("CTZV"))

/-! ## The Response Type Registry and `AtResponse::parse` (AtResponse.cpp) -/

/-- One registry row: tag text, payload parser, multi-line flag. -/
structure ValueParser where
  cmd : Str
  parse : Str → AtResponse
  multiline : Bool

def kCR : Char := '\r'

/-- `"\rOK\r"`, the multi-line / free-text terminator. -/
def krOKr : Str := cs ("\rOK\r")

/-- The tail of a `parseCmds` loop iteration once a registry row has
matched with its delimiter: extract the payload and run the row's parser.
`skipSize` counts the sigil, the tag, and the optional colon. -/
def finishCmd (str : Str) (vp : ValueParser) (skipSize : Nat) :
    Int × Option AtResponse :=
  if vp.multiline then
    match findSubFrom str krOKr skipSize with
    | some payloadEnd =>
      ((payloadEnd : Int) + 4, some (vp.parse (str.take (payloadEnd + 1))))
    | none => (0, none)
  else
    match findSubFrom str [kCR] skipSize with
    | some payloadEnd =>
      ((payloadEnd : Int) + 1,
       some (vp.parse (ltrim (subSlice str skipSize payloadEnd))))
    | none => (0, none)

/-- The registry loop of `parseCmds`: `str1 = str.substr(1)` (sigil
skipped); a row whose tag matches but whose delimiter byte is missing sets
`maybeIncomplete`; a row whose tag matches with a byte that is neither `:`
nor `\r` after it is skipped; exhaustion yields `(0, none)` when
`maybeIncomplete` was set and the terminal `(-1, none)` otherwise. -/
def parseCmdsGo (str str1 : Str) :
    List ValueParser → Bool → Int × Option AtResponse
  | [], maybeIncomplete => if maybeIncomplete then (0, none) else (-1, none)
  | vp :: vps, maybeIncomplete =>
    if vp.cmd.isPrefixOf str1 then
      if str1.length ≤ vp.cmd.length then parseCmdsGo str str1 vps true
      else
        let d := str1.getD vp.cmd.length (Char.ofNat 0)
        if d = ':' then finishCmd str vp (1 + vp.cmd.length + 1)
        else if d = kCR then finishCmd str vp (1 + vp.cmd.length)
        else parseCmdsGo str str1 vps maybeIncomplete
    else parseCmdsGo str str1 vps maybeIncomplete

/-- `parseCmds`. -/
def parseCmds (str : Str) (vps : List ValueParser) : Int × Option AtResponse :=
  parseCmdsGo str (str.drop 1) vps false

/-- The `+` registry, in source order.  The second row is `CPINR`, whose
`id()` returns `"CPIN"`, duplicating the first row's tag. -/
def plusValueParsers : List ValueParser := [
  ⟨cs ("CPIN"), AtResponse.CPIN.parse, false⟩,
  ⟨cs ("CPIN"), AtResponse.CPINR.parse, false⟩,
  ⟨cs ("CRSM"), AtResponse.CRSM.parse, false⟩,
  ⟨cs ("CFUN"), AtResponse.CFUN.parse, false⟩,
  ⟨cs ("CREG"), AtResponse.CREG.parse, false⟩,
  ⟨cs ("CEREG"), AtResponse.CEREG.parse, false⟩,
  ⟨cs ("CGREG"), AtResponse.CGREG.parse, false⟩,
  ⟨cs ("CTEC"), AtResponse.CTEC.parse, false⟩,
  ⟨cs ("COPS"), AtResponse.COPS.parse, true⟩,
  ⟨cs ("WRMP"), AtResponse.WRMP.parse, false⟩,
  ⟨cs ("CCSS"), AtResponse.CCSS.parse, false⟩,
  ⟨cs ("CSQ"), AtResponse.CSQ.parse, false⟩,
  ⟨cs ("CLCC"), AtResponse.CLCC.parse, true⟩,
  ⟨cs ("CCFCU"), AtResponse.CCFCU.parse, true⟩,
  ⟨cs ("CCWA"), AtResponse.CCWA.parse, false⟩,
  ⟨cs ("CUSATD"), AtResponse.CUSATD.parse, false⟩,
  ⟨cs ("CUSATP"), AtResponse.CUSATP.parse, false⟩,
  ⟨cs ("CUSATE"), AtResponse.CUSATE.parse, false⟩,
  ⟨cs ("CUSATT"), AtResponse.CUSATT.parse, false⟩,
  ⟨cs ("CUSATEND"), AtResponse.CUSATEND.parse, false⟩,
  ⟨cs ("CGDCONT"), AtResponse.CGDCONT.parse, true⟩,
  ⟨cs ("CGCONTRDP"), AtResponse.CGCONTRDP.parse, false⟩,
  ⟨cs ("CLCK"), AtResponse.CLCK.parse, false⟩,
  ⟨cs ("CSIM"), AtResponse.CSIM.parse, false⟩,
  ⟨cs ("CCHC"), AtResponse.CCHC.parse, false⟩,
  ⟨cs ("CLIP"), AtResponse.CLIP.parse, false⟩,
  ⟨cs ("CLIR"), AtResponse.CLIR.parse, false⟩,
  ⟨cs ("CMUT"), AtResponse.CMUT.parse, false⟩,
  ⟨cs ("WSOS"), AtResponse.WSOS.parse, false⟩,
  ⟨cs ("CSCA"), AtResponse.CSCA.parse, false⟩,
  ⟨cs ("CSCB"), AtResponse.CSCB.parse, false⟩,
  ⟨cs ("CMGS"), AtResponse.CMGS.parse, false⟩,
  ⟨cs ("CMGW"), AtResponse.CMGW.parse, false⟩,
  ⟨cs ("CME ERROR"), AtResponse.CmeError.parse, false⟩,
  ⟨cs ("CMS ERROR"), AtResponse.CmsError.parse, false⟩]

/-- The `%` registry. -/
def percentValueParsers : List ValueParser := [
  ⟨cs ("CTZV"), AtResponse.CTZV.parse, false⟩,
  ⟨cs ("CGFPCCFG"), AtResponse.CGFPCCFG.parse, false⟩]

/-- The `^` registry. -/
def caretValueParsers : List ValueParser := [
  ⟨cs ("MBAU"), AtResponse.MBAU.parse, false⟩]

/-- `AtResponse::parse`: fixed literals, the special two-stage `+CMT:` /
`+CDS:` forms, the sigil-dispatched registries, and the free-text
`...\rOK\r` fallback.  Result is `(consumed, response)`: `consumed = 0`
means incomplete input, `consumed = -1` a terminal parse failure. -/
def AtResponse.parse (s : Str) : Int × Option AtResponse :=
  if (cs ("RING\r")).isPrefixOf s then (5, some .RING)
  else if (cs ("+CMT:")).isPrefixOf s then
    let trimmed := ltrim (s.drop 5)
    let r := AtResponse.CMT.parse trimmed
    if r.1 > 0 then (r.1 + ((s.length : Int) - (trimmed.length : Int)), r.2)
    else (r.1, none)
  else if (cs ("+CDS:")).isPrefixOf s then
    let trimmed := ltrim (s.drop 5)
    let r := AtResponse.CDS.parse trimmed
    if r.1 > 0 then (r.1 + ((s.length : Int) - (trimmed.length : Int)), r.2)
    else (r.1, none)
  else
    match s with
    | '+' :: _ => parseCmds s plusValueParsers
    | '%' :: _ => parseCmds s percentValueParsers
    | '^' :: _ => parseCmds s caretValueParsers
    | _ =>
      if (cs ("> \r")).isPrefixOf s then (3, some .SmsPrompt)
      else if (cs ("OK\r")).isPrefixOf s then (3, some .OK)
      else if (cs ("ERROR\r")).isPrefixOf s then (6, some .ERROR)
      else
        match findSub s krOKr with
        | some pos => ((pos : Int) + 4, some (.str (s.take pos)))
        | none => (0, none)

/-! ## `AtResponse::holds<T>` (AtResponse.h)

`holds<T>` is a template over the variant's alternative types; we model the
type parameter as a `RespKind` tag. -/

/-- One value per alternative type of the `std::variant`. -/
inductive RespKind where
  | okK | errorK | ringK | smsPromptK | parseErrorK
  | cmeErrorK | cmsErrorK | cpinK | cpinrK | crsmK | cfunK
  | cregK | ceregK | cgregK | ctecK | copsK | wrmpK | ccssK | csqK
  | clccK | ccfcuK | ccwaK | cgdcontK | cgcontrdpK | cgfpccfgK
  | cusatdK | cusatpK | cusateK | cusattK | cusatendK
  | clckK | csimK | cchcK | clipK | clirK | cmutK | wsosK
  | cscaK | cscbK | cmgsK | cmgwK | cmtK | cdsK | mbauK | ctzvK
  | strK
  deriving DecidableEq

/-- The alternative currently active in a response value. -/
def activeKind : AtResponse → RespKind
  | .OK => .okK
  | .ERROR => .errorK
  | .RING => .ringK
  | .SmsPrompt => .smsPromptK
  | .ParseError _ => .parseErrorK
  | .CmeError _ => .cmeErrorK
  | .CmsError _ => .cmsErrorK
  | .CPIN _ => .cpinK
  | .CPINR _ _ => .cpinrK
  | .CRSM _ _ _ => .crsmK
  | .CFUN _ => .cfunK
  | .CREG _ => .cregK
  | .CEREG _ => .ceregK
  | .CGREG _ => .cgregK
  | .CTEC _ => .ctecK
  | .COPS _ _ _ => .copsK
  | .WRMP _ => .wrmpK
  | .CCSS _ => .ccssK
  | .CSQ _ => .csqK
  | .CLCC _ => .clccK
  | .CCFCU _ => .ccfcuK
  | .CCWA _ _ => .ccwaK
  | .CGDCONT _ => .cgdcontK
  | .CGCONTRDP _ _ _ _ _ _ _ _ => .cgcontrdpK
  | .CGFPCCFG _ _ _ _ _ => .cgfpccfgK
  | .CUSATD _ _ => .cusatdK
  | .CUSATP _ => .cusatpK
  | .CUSATE _ => .cusateK
  | .CUSATT _ => .cusattK
  | .CUSATEND => .cusatendK
  | .CLCK _ => .clckK
  | .CSIM _ => .csimK
  | .CCHC => .cchcK
  | .CLIP _ _ => .clipK
  | .CLIR _ _ => .clirK
  | .CMUT _ => .cmutK
  | .WSOS _ => .wsosK
  | .CSCA _ _ => .cscaK
  | .CSCB _ _ _ => .cscbK
  | .CMGS _ => .cmgsK
  | .CMGW _ => .cmgwK
  | .CMT _ _ => .cmtK
  | .CDS _ _ => .cdsK
  | .MBAU _ _ _ _ _ _ => .mbauK
  | .CTZV _ _ _ _ _ _ _ _ _ => .ctzvK
  | .str _ => .strK

/-- `T::id()` for the alternatives that define one; `none` for `OK`,
`ERROR`, `RING`, `SmsPrompt`, `ParseError` and `std::string` (the generic
`holds` template would not instantiate for those).  `CPINR::id()` is
`"CPIN"`. -/
def kindId : RespKind → Option Str
  | .cmeErrorK => some (cs ("CME ERROR"))
  | .cmsErrorK => some (cs ("CMS ERROR"))
  | .cpinK => some (cs ("CPIN"))
  | .cpinrK => some (cs ("CPIN"))
  | .crsmK => some (cs ("CRSM"))
  | .cfunK => some (cs ("CFUN"))
  | .cregK => some (cs ("CREG"))
  | .ceregK => some (cs ("CEREG"))
  | .cgregK => some (cs ("CGREG"))
  | .ctecK => some (cs ("CTEC"))
  | .copsK => some (cs ("COPS"))
  | .wrmpK => some (cs ("WRMP"))
  | .ccssK => some (cs ("CCSS"))
  | .csqK => some (cs ("CSQ"))
  | .clccK => some (cs ("CLCC"))
  | .ccfcuK => some (cs ("CCFCU"))
  | .ccwaK => some (cs ("CCWA"))
  | .cgdcontK => some (cs ("CGDCONT"))
  | .cgcontrdpK => some (cs ("CGCONTRDP"))
  | .cgfpccfgK => some (cs ("CGFPCCFG"))
  | .cusatdK => some (cs ("CUSATD"))
  | .cusatpK => some (cs ("CUSATP"))
  | .cusateK => some (cs ("CUSATE"))
  | .cusattK => some (cs ("CUSATT"))
  | .cusatendK => some (cs ("CUSATEND"))
  | .clckK => some (cs ("CLCK"))
  | .csimK => some (cs ("CSIM"))
  | .cchcK => some (cs ("CCHC"))
  | .clipK => some (cs ("CLIP"))
  | .clirK => some (cs ("CLIR"))
  | .cmutK => some (cs ("CMUT"))
  | .wsosK => some (cs ("WSOS"))
  | .cscaK => some (cs ("CSCA"))
  | .cscbK => some (cs ("CSCB"))
  | .cmgsK => some (cs ("CMGS"))
  | .cmgwK => some (cs ("CMGW"))
  | .cmtK => some (cs ("CMT"))
  | .cdsK => some (cs ("CDS"))
  | .mbauK => some (cs ("MBAU"))
  | .ctzvK => some (cs ("CTZV"))
  | _ => none

/-- `AtResponse::holds<T>`: the three explicit specializations (`OK`,
`SmsPrompt`, `std::string`) test the exact alternative; the generic
template additionally accepts a `ParseError` whose `cmd` equals
`T::id()`. -/
def holds (k : RespKind) (r : AtResponse) : Bool :=
  match k with
  | .okK => activeKind r = .okK
  | .smsPromptK => activeKind r = .smsPromptK
  | .strK => activeKind r = .strK
  | _ =>
    if activeKind r = k then true
    else
      match r with
      | .ParseError cmd =>
        match kindId k with
        | some s => cmd = s
        | none => false
      | _ => false

/-! ## `AtChannel::Conversation` and `AtChannel::broadcastResponse`
(AtChannel.cpp)

The two worker threads interact with the Conversation only through its
mutex-protected `send` and through the arm / disarm transitions of
`operator()`; the model makes that interleaving explicit as a list of
responses delivered while the request is armed.  `filter = none` models
`mFilter == nullptr`; `sink` models the single-shot promise
(`none` = pending). -/

structure Conversation where
  filter : Option (AtResponse → Bool)
  sink : Option AtResponse

/-- `Conversation::send`: claim the response iff a filter is armed and
accepts it; claiming disarms the filter and fulfills the sink. -/
def Conversation.send (cv : Conversation) (r : AtResponse) :
    Bool × Conversation :=
  match cv.filter with
  | some f => if f r then (true, ⟨none, some r⟩) else (false, cv)
  | none => (false, cv)

/-- Deliver a list of responses in order; also counts how many were
claimed. -/
def Conversation.deliverAll (cv : Conversation) :
    List AtResponse → Conversation × Nat
  | [] => (cv, 0)
  | r :: rs =>
    let s := cv.send r
    let d := s.2.deliverAll rs
    (d.1, (if s.1 then 1 else 0) + d.2)

/-- `Conversation::operator()` (send request, then wait): arm `f` and
reset the sink; if the pipe write fails, disarm and return "no response"
at once; otherwise the reader worker delivers `rs` while we wait — if the
sink was fulfilled return its value, else (timeout) disarm and return "no
response".  Result: (returned response, final conversation state). -/
def Conversation.converse (f : AtResponse → Bool) (pipeOk : Bool)
    (rs : List AtResponse) : Option AtResponse × Conversation :=
  let armed : Conversation := ⟨some f, none⟩
  if pipeOk then
    let cv := (armed.deliverAll rs).1
    match cv.sink with
    | some r => (some r, cv)
    | none => (none, ⟨none, none⟩)
  else (none, ⟨none, none⟩)

/-- A broadcast subscriber (`ResponseSink`): `keep` is the sink's return
value (false = detach); `received` logs every response the sink was
invoked with. -/
structure Subscriber where
  keep : AtResponse → Bool
  received : List AtResponse

/-- Invocation of one subscriber's sink with a response. -/
def notifySubscriber (r : AtResponse) (s : Subscriber) : Subscriber :=
  { s with received := s.received ++ [r] }

/-- `AtChannel::broadcastResponse`: offer the response to the Conversation
via `send`, then — regardless of whether it was claimed — invoke every
registered sink exactly once with it (`std::remove_if`), dropping the
sinks that returned false. -/
def broadcastResponse (cv : Conversation) (subs : List Subscriber)
    (r : AtResponse) : Conversation × List Subscriber :=
  ((cv.send r).2,
   (subs.map (notifySubscriber r)).filter (fun s => s.keep r))

/-! ## `IdAllocator` (IdAllocator.h / IdAllocator.cpp)

`std::set<int32_t, std::greater<int32_t>>` is modelled as a strictly
descending list: `rbegin()` is the last element (the minimum), `begin()`
the head (the maximum). -/

/-- Sorted insertion into the descending list (`std::set::insert`;
inserting a present element is a no-op). -/
def insertDesc (id : Int) : List Int → List Int
  | [] => [id]
  | x :: xs =>
    if id > x then id :: x :: xs
    else if id = x then x :: xs
    else x :: insertDesc id xs

/-- The compaction loop of `IdAllocator::put`: with the generator already
decremented to `g`, repeatedly erase the largest returned id while it
equals `g`, decrementing further. -/
def compactTail : List Int → Int → List Int × Int
  | [], g => ([], g)
  | x :: xs, g => if x = g then compactTail xs (g - 1) else (x :: xs, g)

structure IdAllocator where
  returnedIds : List Int
  idGenerator : Int
  deriving DecidableEq

/-- `IdAllocator::get`: reuse the smallest returned id (`rbegin()` of the
descending set) if any, else increment the generator. -/
def IdAllocator.get (a : IdAllocator) : Int × IdAllocator :=
  match a.returnedIds.getLast? with
  | none => (a.idGenerator + 1, ⟨a.returnedIds, a.idGenerator + 1⟩)
  | some m => (m, ⟨a.returnedIds.dropLast, a.idGenerator⟩)

/-- `IdAllocator::put`: freeing the most recently issued id decrements the
generator and compacts the tail of consecutive returned ids; any other id
is inserted into the returned set. -/
def IdAllocator.put (a : IdAllocator) (id : Int) : IdAllocator :=
  if id = a.idGenerator then
    let c := compactTail a.returnedIds (a.idGenerator - 1)
    ⟨c.1, c.2⟩
  else
    ⟨insertDesc id a.returnedIds, a.idGenerator⟩

/-- The predicate of the CPINR-unreachability argument: a payload parser
that never produces the `CPINR` alternative. -/
def notCpinr (p : Str → AtResponse) : Prop :=
  ∀ x, activeKind (p x) ≠ .cpinrK

/-! ## Lemmas about the registry dispatch -/

/-- `find` distributes over an append whose left part cannot contain the
first byte of the needle. -/
theorem findSub_append_no_head (p rest nt : Str) (c0 : Char)
    (hne : ∀ c ∈ p, c ≠ c0) :
    findSub (p ++ rest) (c0 :: nt) =
      (findSub rest (c0 :: nt)).map (· + p.length) := by
  induction p with
  | nil =>
    simp only [List.nil_append, List.length_nil]
    cases findSub rest (c0 :: nt) <;> simp
  | cons d p ih =>
    have hd : d ≠ c0 := hne d (by simp)
    have hb : (c0 == d) = false := by
      rw [beq_eq_false_iff_ne]
      exact fun h => hd h.symm
    have hpf : (c0 :: nt).isPrefixOf (d :: (p ++ rest)) = false := by
      simp [List.isPrefixOf, hb]
    have ih' := ih (fun c hc => hne c (by simp [hc]))
    rw [List.cons_append]
    simp only [findSub, hpf, Bool.false_eq_true, if_false, ih']
    cases findSub rest (c0 :: nt) with
    | none => rfl
    | some j => simp [Nat.add_assoc]

/-- `finishCmd` on a multi-line row without the `\rOK\r` terminator:
incomplete, parser not invoked. -/
theorem finishCmd_multiline_none (s : Str) (vp : ValueParser) (k : Nat)
    (hm : vp.multiline = true)
    (h : findSubFrom s krOKr k = none) :
    finishCmd s vp k = (0, none) := by
  simp [finishCmd, hm, h]

/-- `finishCmd` on a multi-line row with the terminator at index `i`:
consumed `i + 4`, parser invoked on the payload through index `i`. -/
theorem finishCmd_multiline_some (s : Str) (vp : ValueParser) (k i : Nat)
    (hm : vp.multiline = true)
    (h : findSubFrom s krOKr k = some i) :
    finishCmd s vp k = ((i : Int) + 4, some (vp.parse (s.take (i + 1)))) := by
  simp [finishCmd, hm, h]

/-- For `s = p ++ rest` with no `\r` in `p`, searching for `\rOK\r` from
`p.length` is the same as searching from the start. -/
theorem findSubFrom_eq_findSub (p rest : Str) (hne : ∀ c ∈ p, c ≠ kCR) :
    findSubFrom (p ++ rest) krOKr p.length = findSub (p ++ rest) krOKr := by
  have hk : krOKr = kCR :: cs ("OK\r") := rfl
  rw [hk, findSub_append_no_head p rest (cs ("OK\r")) kCR hne]
  unfold findSubFrom
  rw [List.drop_left]

/-- Registry dispatch on a `+COPS:`-prefixed input: the first eight rows'
tags mismatch within the concrete prefix, `COPS` matches with `:` after
it, so its (multi-line) row fires with `skipSize = 6`; all of this is
definitional. -/
theorem parse_cops_eq (rest : Str) :
    AtResponse.parse (cs ("+COPS:") ++ rest) =
      finishCmd (cs ("+COPS:") ++ rest)
        ⟨cs ("COPS"), AtResponse.COPS.parse, true⟩ 6 := rfl

/-- Registry dispatch on a `+CLCC:`-prefixed input (multi-line row,
`skipSize = 6`). -/
theorem parse_clcc_eq (rest : Str) :
    AtResponse.parse (cs ("+CLCC:") ++ rest) =
      finishCmd (cs ("+CLCC:") ++ rest)
        ⟨cs ("CLCC"), AtResponse.CLCC.parse, true⟩ 6 := rfl

/-- Registry dispatch on a `+CCFCU:`-prefixed input (multi-line row,
`skipSize = 7`). -/
theorem parse_ccfcu_eq (rest : Str) :
    AtResponse.parse (cs ("+CCFCU:") ++ rest) =
      finishCmd (cs ("+CCFCU:") ++ rest)
        ⟨cs ("CCFCU"), AtResponse.CCFCU.parse, true⟩ 7 := rfl

/-- Registry dispatch on a `+CGDCONT:`-prefixed input (multi-line row,
`skipSize = 9`). -/
theorem parse_cgdcont_eq (rest : Str) :
    AtResponse.parse (cs ("+CGDCONT:") ++ rest) =
      finishCmd (cs ("+CGDCONT:") ++ rest)
        ⟨cs ("CGDCONT"), AtResponse.CGDCONT.parse, true⟩ 9 := rfl

/-! ## The CPINR-unreachability argument: every payload parser of the
registry except CPINR's own never yields the `CPINR` alternative, and the
`CPIN` row shadows the `CPINR` row (same tag, identical guard), so
`AtResponse::parse` never returns a `CPINR` response. -/

theorem cmeError_notCpinr : notCpinr AtResponse.CmeError.parse := by
  intro x; simp [AtResponse.CmeError.parse, activeKind]

theorem cmsError_notCpinr : notCpinr AtResponse.CmsError.parse := by
  intro x; simp [AtResponse.CmsError.parse, activeKind]

theorem cpin_notCpinr : notCpinr AtResponse.CPIN.parse := by
  intro x; simp only [AtResponse.CPIN.parse]
  repeat' split
  all_goals simp [activeKind]

theorem crsm_notCpinr : notCpinr AtResponse.CRSM.parse := by
  intro x; simp only [AtResponse.CRSM.parse]
  repeat' split
  all_goals simp [activeKind]

theorem cfun_notCpinr : notCpinr AtResponse.CFUN.parse := by
  intro x; simp only [AtResponse.CFUN.parse]
  repeat' split
  all_goals simp [activeKind]

theorem creg_notCpinr : notCpinr AtResponse.CREG.parse := by
  intro x; simp only [AtResponse.CREG.parse]
  repeat' split
  all_goals simp [activeKind]

theorem cereg_notCpinr : notCpinr AtResponse.CEREG.parse := by
  intro x; simp only [AtResponse.CEREG.parse]
  repeat' split
  all_goals simp [activeKind]

theorem cgreg_notCpinr : notCpinr AtResponse.CGREG.parse := by
  intro x; simp only [AtResponse.CGREG.parse]
  repeat' split
  all_goals simp [activeKind]

theorem ctec_notCpinr : notCpinr AtResponse.CTEC.parse := by
  intro x; simp [AtResponse.CTEC.parse, activeKind]

theorem copsOperLoop_notCpinr :
    ∀ (fuel : Nat) (p : PState) (acc : List OperatorInfo),
      activeKind (copsOperLoop fuel p acc) ≠ .cpinrK := by
  intro fuel
  induction fuel with
  | zero => intro p acc; simp [copsOperLoop, activeKind]
  | succ n ih =>
    intro p acc
    simp only [copsOperLoop]
    repeat' split
    all_goals first
      | exact ih _ _
      | simp [activeKind]

theorem cops_notCpinr : notCpinr AtResponse.COPS.parse := by
  intro x; simp only [AtResponse.COPS.parse]
  repeat' split
  all_goals first
    | exact copsOperLoop_notCpinr _ _ _
    | simp [activeKind]

theorem wrmp_notCpinr : notCpinr AtResponse.WRMP.parse := by
  intro x; simp only [AtResponse.WRMP.parse]
  repeat' split
  all_goals simp [activeKind]

theorem ccss_notCpinr : notCpinr AtResponse.CCSS.parse := by
  intro x; simp only [AtResponse.CCSS.parse]
  repeat' split
  all_goals simp [activeKind]

theorem csq_notCpinr : notCpinr AtResponse.CSQ.parse := by
  intro x; simp only [AtResponse.CSQ.parse]
  repeat' split
  all_goals simp [activeKind]

theorem clccLoop_notCpinr :
    ∀ (fuel : Nat) (p : PState) (acc : List Call),
      activeKind (clccLoop fuel p acc) ≠ .cpinrK := by
  intro fuel
  induction fuel with
  | zero => intro p acc; simp [clccLoop, activeKind]
  | succ n ih =>
    intro p acc
    simp only [clccLoop]
    repeat' split
    all_goals first
      | exact ih _ _
      | simp [activeKind]

theorem clcc_notCpinr : notCpinr AtResponse.CLCC.parse := by
  intro x; exact clccLoop_notCpinr _ _ _

theorem ccfcuLoop_notCpinr :
    ∀ (fuel : Nat) (p : PState) (acc : List CallForwardInfo),
      activeKind (ccfcuLoop fuel p acc) ≠ .cpinrK := by
  intro fuel
  induction fuel with
  | zero => intro p acc; simp [ccfcuLoop, activeKind]
  | succ n ih =>
    intro p acc
    simp only [ccfcuLoop]
    repeat' split
    all_goals first
      | exact ih _ _
      | simp [activeKind]

theorem ccfcu_notCpinr : notCpinr AtResponse.CCFCU.parse := by
  intro x; exact ccfcuLoop_notCpinr _ _ _

theorem ccwa_notCpinr : notCpinr AtResponse.CCWA.parse := by
  intro x; simp only [AtResponse.CCWA.parse]
  repeat' split
  all_goals simp [activeKind]

theorem cgdcontLoop_notCpinr :
    ∀ (fuel : Nat) (p : PState) (acc : List PdpContext),
      activeKind (cgdcontLoop fuel p acc) ≠ .cpinrK := by
  intro fuel
  induction fuel with
  | zero => intro p acc; simp [cgdcontLoop, activeKind]
  | succ n ih =>
    intro p acc
    simp only [cgdcontLoop]
    repeat' split
    all_goals first
      | exact ih _ _
      | simp [activeKind]

theorem cgdcont_notCpinr : notCpinr AtResponse.CGDCONT.parse := by
  intro x; exact cgdcontLoop_notCpinr _ _ _

theorem cgcontrdp_notCpinr : notCpinr AtResponse.CGCONTRDP.parse := by
  intro x; simp only [AtResponse.CGCONTRDP.parse]
  repeat' split
  all_goals simp [activeKind]

theorem cgfpccfg_notCpinr : notCpinr AtResponse.CGFPCCFG.parse := by
  intro x; simp only [AtResponse.CGFPCCFG.parse]
  repeat' split
  all_goals simp [activeKind]

theorem cusatd_notCpinr : notCpinr AtResponse.CUSATD.parse := by
  intro x; simp only [AtResponse.CUSATD.parse]
  repeat' split
  all_goals simp [activeKind]

theorem cusatp_notCpinr : notCpinr AtResponse.CUSATP.parse := by
  intro x; simp [AtResponse.CUSATP.parse, activeKind]

theorem cusate_notCpinr : notCpinr AtResponse.CUSATE.parse := by
  intro x; simp [AtResponse.CUSATE.parse, activeKind]

theorem cusatt_notCpinr : notCpinr AtResponse.CUSATT.parse := by
  intro x; simp only [AtResponse.CUSATT.parse]
  repeat' split
  all_goals simp [activeKind]

theorem cusatend_notCpinr : notCpinr AtResponse.CUSATEND.parse := by
  intro x; simp [AtResponse.CUSATEND.parse, activeKind]

theorem clck_notCpinr : notCpinr AtResponse.CLCK.parse := by
  intro x; simp only [AtResponse.CLCK.parse]
  repeat' split
  all_goals simp [activeKind]

theorem csim_notCpinr : notCpinr AtResponse.CSIM.parse := by
  intro x; simp only [AtResponse.CSIM.parse]
  repeat' split
  all_goals simp [activeKind]

theorem cchc_notCpinr : notCpinr AtResponse.CCHC.parse := by
  intro x; simp [AtResponse.CCHC.parse, activeKind]

theorem clip_notCpinr : notCpinr AtResponse.CLIP.parse := by
  intro x; simp only [AtResponse.CLIP.parse]
  repeat' split
  all_goals simp [activeKind]

theorem clir_notCpinr : notCpinr AtResponse.CLIR.parse := by
  intro x; simp only [AtResponse.CLIR.parse]
  repeat' split
  all_goals simp [activeKind]

theorem cmut_notCpinr : notCpinr AtResponse.CMUT.parse := by
  intro x; simp only [AtResponse.CMUT.parse]
  repeat' split
  all_goals simp [activeKind]

theorem wsos_notCpinr : notCpinr AtResponse.WSOS.parse := by
  intro x; simp only [AtResponse.WSOS.parse]
  repeat' split
  all_goals simp [activeKind]

theorem csca_notCpinr : notCpinr AtResponse.CSCA.parse := by
  intro x; simp only [AtResponse.CSCA.parse]
  repeat' split
  all_goals simp [activeKind]

theorem cscb_notCpinr : notCpinr AtResponse.CSCB.parse := by
  intro x; simp only [AtResponse.CSCB.parse]
  repeat' split
  all_goals simp [activeKind]

theorem cmgs_notCpinr : notCpinr AtResponse.CMGS.parse := by
  intro x; simp only [AtResponse.CMGS.parse]
  repeat' split
  all_goals simp [activeKind]

theorem cmgw_notCpinr : notCpinr AtResponse.CMGW.parse := by
  intro x; simp only [AtResponse.CMGW.parse]
  repeat' split
  all_goals simp [activeKind]

theorem ctzv_notCpinr : notCpinr AtResponse.CTZV.parse := by
  intro x; simp only [AtResponse.CTZV.parse]
  repeat' split
  all_goals simp [activeKind]

theorem mbau_notCpinr : notCpinr AtResponse.MBAU.parse := by
  intro x; simp only [AtResponse.MBAU.parse]
  repeat' split
  all_goals simp [activeKind]

theorem cmt_snd_notCpinr :
    ∀ (x : Str) (r : AtResponse),
      (AtResponse.CMT.parse x).2 = some r → activeKind r ≠ .cpinrK := by
  intro x r h
  simp only [AtResponse.CMT.parse] at h
  repeat' split at h
  all_goals dsimp only at h
  all_goals first
    | (obtain rfl := Option.some.inj h; simp [activeKind])
    | exact Option.noConfusion h

theorem cds_snd_notCpinr :
    ∀ (x : Str) (r : AtResponse),
      (AtResponse.CDS.parse x).2 = some r → activeKind r ≠ .cpinrK := by
  intro x r h
  simp only [AtResponse.CDS.parse] at h
  repeat' split at h
  all_goals dsimp only at h
  all_goals first
    | (obtain rfl := Option.some.inj h; simp [activeKind])
    | exact Option.noConfusion h



theorem finishCmd_some (str : Str) (vp : ValueParser) (k : Nat) (c : Int)
    (r : AtResponse) (h : finishCmd str vp k = (c, some r)) :
    ∃ payload, r = vp.parse payload := by
  simp only [finishCmd] at h
  repeat' split at h
  all_goals first
    | exact ⟨_, (Option.some.inj (congrArg Prod.snd h)).symm⟩
    | exact Option.noConfusion (congrArg Prod.snd h)

theorem go_skip_notpfx (str str1 : Str) (vp : ValueParser)
    (vps : List ValueParser) (mi : Bool)
    (h : vp.cmd.isPrefixOf str1 = false) :
    parseCmdsGo str str1 (vp :: vps) mi = parseCmdsGo str str1 vps mi := by
  simp [parseCmdsGo, h]

theorem go_skip_short (str str1 : Str) (vp : ValueParser)
    (vps : List ValueParser) (mi : Bool)
    (hp : vp.cmd.isPrefixOf str1 = true)
    (hl : str1.length ≤ vp.cmd.length) :
    parseCmdsGo str str1 (vp :: vps) mi = parseCmdsGo str str1 vps true := by
  simp [parseCmdsGo, hp, hl]

theorem go_skip_delim (str str1 : Str) (vp : ValueParser)
    (vps : List ValueParser) (mi : Bool)
    (hl : ¬str1.length ≤ vp.cmd.length)
    (hd1 : ¬str1[vp.cmd.length]?.getD (Char.ofNat 0) = ':')
    (hd2 : ¬str1[vp.cmd.length]?.getD (Char.ofNat 0) = kCR) :
    parseCmdsGo str str1 (vp :: vps) mi = parseCmdsGo str str1 vps mi := by
  rcases hp : vp.cmd.isPrefixOf str1 with _ | _
  · simp [parseCmdsGo, hp]
  · simp [parseCmdsGo, hp, hl, hd1, hd2]

theorem go_fire_colon_eq (str str1 : Str) (vp : ValueParser)
    (vps : List ValueParser) (mi : Bool)
    (hp : vp.cmd.isPrefixOf str1 = true)
    (hl : ¬str1.length ≤ vp.cmd.length)
    (hd1 : str1[vp.cmd.length]?.getD (Char.ofNat 0) = ':') :
    parseCmdsGo str str1 (vp :: vps) mi =
      finishCmd str vp (1 + vp.cmd.length + 1) := by
  simp [parseCmdsGo, hp, hl, hd1]

theorem go_fire_cr_eq (str str1 : Str) (vp : ValueParser)
    (vps : List ValueParser) (mi : Bool)
    (hp : vp.cmd.isPrefixOf str1 = true)
    (hl : ¬str1.length ≤ vp.cmd.length)
    (_hd1 : ¬str1[vp.cmd.length]?.getD (Char.ofNat 0) = ':')
    (hd2 : str1[vp.cmd.length]?.getD (Char.ofNat 0) = kCR) :
    parseCmdsGo str str1 (vp :: vps) mi =
      finishCmd str vp (1 + vp.cmd.length) := by
  simp [parseCmdsGo, hp, hl, hd2, kCR]

theorem parseCmdsGo_notCpinr (str str1 : Str) :
    ∀ (vps : List ValueParser),
      (∀ vp ∈ vps, notCpinr vp.parse) →
      ∀ (mi : Bool) (c : Int) (r : AtResponse),
        parseCmdsGo str str1 vps mi = (c, some r) → activeKind r ≠ .cpinrK := by
  intro vps
  induction vps with
  | nil =>
    intro _ mi c r h
    simp only [parseCmdsGo] at h
    split at h <;> exact Option.noConfusion (congrArg Prod.snd h)
  | cons vp vps ih =>
    intro hv mi c r h
    simp only [parseCmdsGo] at h
    repeat' split at h
    all_goals first
      | exact ih (fun v hvv => hv v (List.mem_cons_of_mem _ hvv)) _ c r h
      | (obtain ⟨payload, rfl⟩ := finishCmd_some _ _ _ _ _ h
         exact hv vp (List.mem_cons_self _ _) payload)

theorem parseCmdsGo_shadow (str str1 : Str) (cmd : Str)
    (p1 p2 : Str → AtResponse) (m1 m2 : Bool) (vps : List ValueParser)
    (h1 : notCpinr p1) (hrest : ∀ vp ∈ vps, notCpinr vp.parse) :
    ∀ (mi : Bool) (c : Int) (r : AtResponse),
      parseCmdsGo str str1
        (⟨cmd, p1, m1⟩ :: ⟨cmd, p2, m2⟩ :: vps) mi = (c, some r) →
      activeKind r ≠ .cpinrK := by
  intro mi c r h
  by_cases hp : cmd.isPrefixOf str1 = true
  · by_cases hl : str1.length ≤ cmd.length
    · rw [go_skip_short str str1 ⟨cmd, p1, m1⟩ _ mi hp hl,
          go_skip_short str str1 ⟨cmd, p2, m2⟩ _ true hp hl] at h
      exact parseCmdsGo_notCpinr str str1 vps hrest true c r h
    · by_cases hd1 : str1[cmd.length]?.getD (Char.ofNat 0) = ':'
      · rw [go_fire_colon_eq str str1 ⟨cmd, p1, m1⟩ _ mi hp hl hd1] at h
        obtain ⟨payload, rfl⟩ := finishCmd_some _ _ _ _ _ h
        exact h1 payload
      · by_cases hd2 : str1[cmd.length]?.getD (Char.ofNat 0) = kCR
        · rw [go_fire_cr_eq str str1 ⟨cmd, p1, m1⟩ _ mi hp hl hd1 hd2] at h
          obtain ⟨payload, rfl⟩ := finishCmd_some _ _ _ _ _ h
          exact h1 payload
        · rw [go_skip_delim str str1 ⟨cmd, p1, m1⟩ _ mi hl hd1 hd2,
              go_skip_delim str str1 ⟨cmd, p2, m2⟩ _ mi hl hd1 hd2] at h
          exact parseCmdsGo_notCpinr str str1 vps hrest mi c r h
  · have hp' : cmd.isPrefixOf str1 = false := by
      rcases hb : cmd.isPrefixOf str1 with _ | _
      · rfl
      · exact absurd hb hp
    rw [go_skip_notpfx str str1 ⟨cmd, p1, m1⟩ _ mi hp',
        go_skip_notpfx str str1 ⟨cmd, p2, m2⟩ _ mi hp'] at h
    exact parseCmdsGo_notCpinr str str1 vps hrest mi c r h

set_option maxHeartbeats 1600000 in
theorem plusTail_notCpinr : ∀ vp ∈ plusValueParsers.drop 2, notCpinr vp.parse := by
  intro vp hv
  rw [show plusValueParsers.drop 2 =
     [⟨cs ("CRSM"), AtResponse.CRSM.parse, false⟩,
      ⟨cs ("CFUN"), AtResponse.CFUN.parse, false⟩,
      ⟨cs ("CREG"), AtResponse.CREG.parse, false⟩,
      ⟨cs ("CEREG"), AtResponse.CEREG.parse, false⟩,
      ⟨cs ("CGREG"), AtResponse.CGREG.parse, false⟩,
      ⟨cs ("CTEC"), AtResponse.CTEC.parse, false⟩,
      ⟨cs ("COPS"), AtResponse.COPS.parse, true⟩,
      ⟨cs ("WRMP"), AtResponse.WRMP.parse, false⟩,
      ⟨cs ("CCSS"), AtResponse.CCSS.parse, false⟩,
      ⟨cs ("CSQ"), AtResponse.CSQ.parse, false⟩,
      ⟨cs ("CLCC"), AtResponse.CLCC.parse, true⟩,
      ⟨cs ("CCFCU"), AtResponse.CCFCU.parse, true⟩,
      ⟨cs ("CCWA"), AtResponse.CCWA.parse, false⟩,
      ⟨cs ("CUSATD"), AtResponse.CUSATD.parse, false⟩,
      ⟨cs ("CUSATP"), AtResponse.CUSATP.parse, false⟩,
      ⟨cs ("CUSATE"), AtResponse.CUSATE.parse, false⟩,
      ⟨cs ("CUSATT"), AtResponse.CUSATT.parse, false⟩,
      ⟨cs ("CUSATEND"), AtResponse.CUSATEND.parse, false⟩,
      ⟨cs ("CGDCONT"), AtResponse.CGDCONT.parse, true⟩,
      ⟨cs ("CGCONTRDP"), AtResponse.CGCONTRDP.parse, false⟩,
      ⟨cs ("CLCK"), AtResponse.CLCK.parse, false⟩,
      ⟨cs ("CSIM"), AtResponse.CSIM.parse, false⟩,
      ⟨cs ("CCHC"), AtResponse.CCHC.parse, false⟩,
      ⟨cs ("CLIP"), AtResponse.CLIP.parse, false⟩,
      ⟨cs ("CLIR"), AtResponse.CLIR.parse, false⟩,
      ⟨cs ("CMUT"), AtResponse.CMUT.parse, false⟩,
      ⟨cs ("WSOS"), AtResponse.WSOS.parse, false⟩,
      ⟨cs ("CSCA"), AtResponse.CSCA.parse, false⟩,
      ⟨cs ("CSCB"), AtResponse.CSCB.parse, false⟩,
      ⟨cs ("CMGS"), AtResponse.CMGS.parse, false⟩,
      ⟨cs ("CMGW"), AtResponse.CMGW.parse, false⟩,
      ⟨cs ("CME ERROR"), AtResponse.CmeError.parse, false⟩,
      ⟨cs ("CMS ERROR"), AtResponse.CmsError.parse, false⟩] from rfl] at hv
  fin_cases hv <;>
    first
      | exact crsm_notCpinr
      | exact cfun_notCpinr
      | exact creg_notCpinr
      | exact cereg_notCpinr
      | exact cgreg_notCpinr
      | exact ctec_notCpinr
      | exact cops_notCpinr
      | exact wrmp_notCpinr
      | exact ccss_notCpinr
      | exact csq_notCpinr
      | exact clcc_notCpinr
      | exact ccfcu_notCpinr
      | exact ccwa_notCpinr
      | exact cusatd_notCpinr
      | exact cusatp_notCpinr
      | exact cusate_notCpinr
      | exact cusatt_notCpinr
      | exact cusatend_notCpinr
      | exact cgdcont_notCpinr
      | exact cgcontrdp_notCpinr
      | exact clck_notCpinr
      | exact csim_notCpinr
      | exact cchc_notCpinr
      | exact clip_notCpinr
      | exact clir_notCpinr
      | exact cmut_notCpinr
      | exact wsos_notCpinr
      | exact csca_notCpinr
      | exact cscb_notCpinr
      | exact cmgs_notCpinr
      | exact cmgw_notCpinr
      | exact cmeError_notCpinr
      | exact cmsError_notCpinr

theorem percent_notCpinr : ∀ vp ∈ percentValueParsers, notCpinr vp.parse := by
  intro vp hv
  rw [show percentValueParsers =
     [⟨cs ("CTZV"), AtResponse.CTZV.parse, false⟩,
      ⟨cs ("CGFPCCFG"), AtResponse.CGFPCCFG.parse, false⟩] from rfl] at hv
  fin_cases hv <;>
    first
      | exact ctzv_notCpinr
      | exact cgfpccfg_notCpinr

theorem caret_notCpinr : ∀ vp ∈ caretValueParsers, notCpinr vp.parse := by
  intro vp hv
  rw [show caretValueParsers =
     [⟨cs ("MBAU"), AtResponse.MBAU.parse, false⟩] from rfl] at hv
  fin_cases hv
  exact mbau_notCpinr

set_option maxHeartbeats 1600000 in
theorem parse_snd_notCpinr :
    ∀ (s : Str) (c : Int) (r : AtResponse),
      AtResponse.parse s = (c, some r) → activeKind r ≠ .cpinrK := by
  intro s c r h
  simp only [AtResponse.parse] at h
  repeat' split at h
  all_goals first
    | exact Option.noConfusion (congrArg Prod.snd h)
    | (obtain rfl := Option.some.inj (congrArg Prod.snd h)
       simp [activeKind])
    | exact cmt_snd_notCpinr _ _ (congrArg Prod.snd h)
    | exact cds_snd_notCpinr _ _ (congrArg Prod.snd h)
    | (simp only [parseCmds] at h
       rw [show plusValueParsers =
          (⟨cs ("CPIN"), AtResponse.CPIN.parse, false⟩ : ValueParser) ::
          ⟨cs ("CPIN"), AtResponse.CPINR.parse, false⟩ ::
          plusValueParsers.drop 2 from rfl] at h
       exact parseCmdsGo_shadow _ _ _ _ _ _ _ _
         cpin_notCpinr plusTail_notCpinr _ c r h)
    | (simp only [parseCmds] at h
       exact parseCmdsGo_notCpinr _ _ percentValueParsers
         percent_notCpinr _ c r h)
    | (simp only [parseCmds] at h
       exact parseCmdsGo_notCpinr _ _ caretValueParsers
         caret_notCpinr _ c r h)

/-! ## Claim theorems -/

/-- C8: `AtResponse::parse("OK\r")` consumes 3 bytes and yields the `OK`
variant; `AtResponse::parse("+CPIN: READY\r")` consumes 13 bytes and
yields `CPIN` with state `READY`. -/
theorem c8_ok_and_cpin_examples :
    AtResponse.parse (cs ("OK\r")) = (3, some .OK) ∧
    AtResponse.parse (cs ("+CPIN: READY\r")) =
      (13, some (.CPIN .READY)) := by
  exact ⟨rfl, rfl⟩

/-- C1 counterexample: the claim says every strict prefix of
`"+CSQ:1,2\r"` (truncation at every byte offset from 1 up) parses as
incomplete (0) and never terminal; but already the length-1 prefix `"+"`
yields the terminal result `(-1, none)`. -/
theorem c1_short_prefix_counterexample :
    AtResponse.parse ((cs ("+CSQ:1,2\r")).take 1) = (-1, none) := by
  exact rfl

/-- C1 (amended): `"+NOTREAL:x\r"` is a terminal parse failure `(-1)`;
strict prefixes of `"+CSQ:1,2\r"` of length 4 through 8 (those long
enough to contain the full `CSQ` tag) parse as incomplete `(0)`, while
the prefixes of length 1 through 3 — shorter than every registered tag
they could begin — are terminal parse failures `(-1)`, never incomplete. -/
theorem c1_unrecognized_fatal_partial_incomplete :
    AtResponse.parse (cs ("+NOTREAL:x\r")) = (-1, none) ∧
    (∀ k, 4 ≤ k → k ≤ 8 →
      AtResponse.parse ((cs ("+CSQ:1,2\r")).take k) = (0, none)) ∧
    (∀ k, 1 ≤ k → k ≤ 3 →
      AtResponse.parse ((cs ("+CSQ:1,2\r")).take k) = (-1, none)) := by
  refine ⟨rfl, ?_, ?_⟩ <;>
    · intro k h1 h2
      interval_cases k <;> rfl

/-- C1 witness: the amended theorem applied at truncation offset 4. -/
theorem c1_witness :
    AtResponse.parse ((cs ("+CSQ:1,2\r")).take 4) = (0, none) :=
  c1_unrecognized_fatal_partial_incomplete.2.1 4 (by decide) (by decide)

/-- C3 counterexample: `CLCC` is registered multi-line, so the input
`"+CLCC: 1,0,0,0,0,\"12345\",129\r"` — which has no `\rOK\r` terminator —
parses as incomplete `(0, none)`, not as a completed `CLCC` response. -/
theorem c3_clcc_without_ok_counterexample :
    AtResponse.parse (cs ("+CLCC: 1,0,0,0,0,\"12345\",129\r")) =
      (0, none) := by
  exact rfl

/-- C3 (amended): with the `OK\r` terminator appended,
`"+CLCC: 1,0,0,0,0,\"12345\",129\rOK\r"` parses completely (consumed =
32) into one `Call` entry with index 1, state 0, `isMT = false`,
`isVoice = true`, toa 129, and `number` captured as `"12345"` with the
quote characters retained (the parser reads up to the comma and does not
strip quotes); the input truncated just after `"+CLCC: 1,0,0,0,0,\""`
parses as incomplete `(0, none)`. -/
theorem c3_clcc_amended_examples :
    AtResponse.parse (cs ("+CLCC: 1,0,0,0,0,\"12345\",129\rOK\r")) =
      (32, some (.CLCC [{ state := 0, index := 1, toa := 129,
                          isMpty := false, isMT := false, isVoice := true,
                          number := cs ("\"12345\"") }])) ∧
    AtResponse.parse (cs ("+CLCC: 1,0,0,0,0,\"")) = (0, none) := by
  exact ⟨rfl, rfl⟩

/-- C9: every input beginning with `"+CPINR"` followed by a colon is a
terminal parse failure `(-1, none)` — no response object — because the
registry row for `CPINR` carries `CPINR::id() = "CPIN"`, duplicating the
`CPIN` row's tag, and on such inputs both rows see the byte `'R'`
(neither `':'` nor `'\r'`) after the matched `"CPIN"` text; no other tag
matches.  Moreover `AtResponse::parse` never produces a `CPINR` variant
on any input whatsoever (`CPINR::parse` is unreachable: the `CPIN` row
precedes the `CPINR` row with the identical tag and guard, and no other
parser builds that alternative).  The last conjunct records the
duplicated tag text of the first two registry rows. -/
theorem c9_cpinr_unreachable :
    (∀ rest : Str,
      AtResponse.parse (cs ("+CPINR:") ++ rest) = (-1, none)) ∧
    (∀ (s : Str) (c : Int) (r : AtResponse),
      AtResponse.parse s = (c, some r) → activeKind r ≠ .cpinrK) ∧
    (plusValueParsers.map ValueParser.cmd).take 2 =
      [cs ("CPIN"), cs ("CPIN")] := by
  exact ⟨fun _ => rfl, parse_snd_notCpinr, rfl⟩

/-- C6: for each multi-line registry tag (`COPS`, `CLCC`, `CCFCU`,
`CGDCONT`), an input `"+TAG:" ++ rest` with no `"\rOK\r"` anywhere parses
as incomplete `(0, none)` without invoking the tag's payload parser, and
when `"\rOK\r"` first occurs at index `i` the payload parser is invoked
on the input through index `i` and the consumed count is `i + 4`. -/
theorem c6_multiline_terminator :
    ∀ rest : Str,
      (findSub (cs ("+COPS:") ++ rest) krOKr = none →
        AtResponse.parse (cs ("+COPS:") ++ rest) = (0, none)) ∧
      (∀ i, findSub (cs ("+COPS:") ++ rest) krOKr = some i →
        AtResponse.parse (cs ("+COPS:") ++ rest) =
          ((i : Int) + 4,
           some (AtResponse.COPS.parse
                  ((cs ("+COPS:") ++ rest).take (i + 1))))) ∧
      (findSub (cs ("+CLCC:") ++ rest) krOKr = none →
        AtResponse.parse (cs ("+CLCC:") ++ rest) = (0, none)) ∧
      (∀ i, findSub (cs ("+CLCC:") ++ rest) krOKr = some i →
        AtResponse.parse (cs ("+CLCC:") ++ rest) =
          ((i : Int) + 4,
           some (AtResponse.CLCC.parse
                  ((cs ("+CLCC:") ++ rest).take (i + 1))))) ∧
      (findSub (cs ("+CCFCU:") ++ rest) krOKr = none →
        AtResponse.parse (cs ("+CCFCU:") ++ rest) = (0, none)) ∧
      (∀ i, findSub (cs ("+CCFCU:") ++ rest) krOKr = some i →
        AtResponse.parse (cs ("+CCFCU:") ++ rest) =
          ((i : Int) + 4,
           some (AtResponse.CCFCU.parse
                  ((cs ("+CCFCU:") ++ rest).take (i + 1))))) ∧
      (findSub (cs ("+CGDCONT:") ++ rest) krOKr = none →
        AtResponse.parse (cs ("+CGDCONT:") ++ rest) = (0, none)) ∧
      (∀ i, findSub (cs ("+CGDCONT:") ++ rest) krOKr = some i →
        AtResponse.parse (cs ("+CGDCONT:") ++ rest) =
          ((i : Int) + 4,
           some (AtResponse.CGDCONT.parse
                  ((cs ("+CGDCONT:") ++ rest).take (i + 1))))) := by
  intro rest
  have hcops := findSubFrom_eq_findSub (cs ("+COPS:")) rest (by decide)
  have hclcc := findSubFrom_eq_findSub (cs ("+CLCC:")) rest (by decide)
  have hccfcu := findSubFrom_eq_findSub (cs ("+CCFCU:")) rest (by decide)
  have hcgd := findSubFrom_eq_findSub (cs ("+CGDCONT:")) rest (by decide)
  refine ⟨fun h => ?_, fun i h => ?_, fun h => ?_, fun i h => ?_,
          fun h => ?_, fun i h => ?_, fun h => ?_, fun i h => ?_⟩
  · rw [parse_cops_eq rest]
    exact finishCmd_multiline_none _ _ _ rfl (by rw [show (6 : Nat) =
      (cs ("+COPS:")).length from rfl, hcops, h])
  · rw [parse_cops_eq rest]
    exact finishCmd_multiline_some _ _ _ i rfl (by rw [show (6 : Nat) =
      (cs ("+COPS:")).length from rfl, hcops, h])
  · rw [parse_clcc_eq rest]
    exact finishCmd_multiline_none _ _ _ rfl (by rw [show (6 : Nat) =
      (cs ("+CLCC:")).length from rfl, hclcc, h])
  · rw [parse_clcc_eq rest]
    exact finishCmd_multiline_some _ _ _ i rfl (by rw [show (6 : Nat) =
      (cs ("+CLCC:")).length from rfl, hclcc, h])
  · rw [parse_ccfcu_eq rest]
    exact finishCmd_multiline_none _ _ _ rfl (by rw [show (7 : Nat) =
      (cs ("+CCFCU:")).length from rfl, hccfcu, h])
  · rw [parse_ccfcu_eq rest]
    exact finishCmd_multiline_some _ _ _ i rfl (by rw [show (7 : Nat) =
      (cs ("+CCFCU:")).length from rfl, hccfcu, h])
  · rw [parse_cgdcont_eq rest]
    exact finishCmd_multiline_none _ _ _ rfl (by rw [show (9 : Nat) =
      (cs ("+CGDCONT:")).length from rfl, hcgd, h])
  · rw [parse_cgdcont_eq rest]
    exact finishCmd_multiline_some _ _ _ i rfl (by rw [show (9 : Nat) =
      (cs ("+CGDCONT:")).length from rfl, hcgd, h])

/-- C6 witness: the theorem applied at `rest = "1\rOK\r"` for the `COPS`
tag, where `\rOK\r` first occurs at index 7. -/
theorem c6_witness :
    AtResponse.parse (cs ("+COPS:") ++ cs ("1\rOK\r")) =
      ((7 : Int) + 4,
       some (AtResponse.COPS.parse
              ((cs ("+COPS:") ++ cs ("1\rOK\r")).take (7 + 1)))) :=
  (c6_multiline_terminator (cs ("1\rOK\r"))).2.1 7 (by decide)

/-! ## Conversation lemmas -/

/-- `send` with no armed filter claims nothing and changes nothing. -/
theorem send_filter_none {cv : Conversation} (h : cv.filter = none)
    (r : AtResponse) : cv.send r = (false, cv) := by
  simp [Conversation.send, h]

/-- Delivery to a disarmed conversation claims nothing and changes
nothing. -/
theorem deliverAll_filter_none {cv : Conversation} (h : cv.filter = none)
    (rs : List AtResponse) : cv.deliverAll rs = (cv, 0) := by
  induction rs with
  | nil => rfl
  | cons r rs ih => simp [Conversation.deliverAll, send_filter_none h, ih]

/-- Over any delivery sequence a conversation claims at most one
response: the single-shot property. -/
theorem deliverAll_claims_le_one (cv : Conversation)
    (rs : List AtResponse) : (cv.deliverAll rs).2 ≤ 1 := by
  induction rs generalizing cv with
  | nil => simp [Conversation.deliverAll]
  | cons r rs ih =>
    rcases hf : cv.filter with _ | f
    · rw [deliverAll_filter_none hf]
      simp
    · by_cases hfr : f r = true
      · have hs : cv.send r = (true, ⟨none, some r⟩) := by
          simp [Conversation.send, hf, hfr]
        simp [Conversation.deliverAll, hs,
              @deliverAll_filter_none ⟨none, some r⟩ rfl]
      · have hfr' : f r = false := by simpa using hfr
        have hs : cv.send r = (false, cv) := by
          simp [Conversation.send, hf, hfr']
        simpa [Conversation.deliverAll, hs] using ih cv

/-- Delivering only rejected responses to an armed conversation leaves it
armed and unfulfilled. -/
theorem deliverAll_all_rejected (f : AtResponse → Bool)
    (s0 : Option AtResponse) (rs : List AtResponse)
    (h : ∀ r ∈ rs, f r = false) :
    Conversation.deliverAll ⟨some f, s0⟩ rs = (⟨some f, s0⟩, 0) := by
  induction rs with
  | nil => rfl
  | cons r rs ih =>
    have hs : (Conversation.mk (some f) s0).send r = (false, ⟨some f, s0⟩) := by
      simp [Conversation.send, h r (by simp)]
    simp [Conversation.deliverAll, hs, ih (fun x hx => h x (by simp [hx]))]

/-- C5: `Conversation::send` returns "claimed" iff a predicate is armed
and accepts the response; a claim disarms the filter and fulfills the
sink with exactly that response; a non-claim leaves the state untouched;
consequently any delivery sequence fulfills the slot at most once. -/
theorem c5_send_claim_semantics :
    ∀ (cv : Conversation) (r : AtResponse),
      ((cv.send r).1 = true ↔ ∃ f, cv.filter = some f ∧ f r = true) ∧
      ((cv.send r).1 = true → (cv.send r).2 = ⟨none, some r⟩) ∧
      ((cv.send r).1 = false → (cv.send r).2 = cv) ∧
      (∀ rs, (cv.deliverAll rs).2 ≤ 1) := by
  intro cv r
  refine ⟨?_, ?_, ?_, fun rs => deliverAll_claims_le_one cv rs⟩ <;>
    rcases hf : cv.filter with _ | f
  · simp [Conversation.send, hf]
  · by_cases hfr : f r = true <;> simp [Conversation.send, hf, hfr]
  · simp [send_filter_none hf r]
  · by_cases hfr : f r = true <;> simp [Conversation.send, hf, hfr]
  · simp [send_filter_none hf r]
  · by_cases hfr : f r = true <;> simp [Conversation.send, hf, hfr]

/-- C5 witness: a conversation armed with an always-true predicate claims
`OK`, disarming and fulfilling the slot. -/
theorem c5_witness :
    ((Conversation.mk (some (fun _ => true)) none).send .OK).2 =
      ⟨none, some .OK⟩ :=
  (c5_send_claim_semantics ⟨some (fun _ => true), none⟩ .OK).2.1 rfl

/-- C4: `Conversation::operator()` returns "no response" immediately when
the transmission fails (whatever the reader would have delivered), and
returns "no response" after the wait when no delivered response satisfies
the predicate; in both cases the predicate slot ends disarmed (and the
sink unfulfilled). -/
theorem c4_converse_failure_semantics :
    ∀ (f : AtResponse → Bool) (rs : List AtResponse),
      Conversation.converse f false rs = (none, ⟨none, none⟩) ∧
      ((∀ r ∈ rs, f r = false) →
        Conversation.converse f true rs = (none, ⟨none, none⟩)) := by
  intro f rs
  constructor
  · rfl
  · intro h
    simp [Conversation.converse, deliverAll_all_rejected f none rs h]

/-- C4 witness: an always-false predicate times out on delivery `[OK]`
and ends disarmed. -/
theorem c4_witness :
    Conversation.converse (fun _ => false) true [.OK] =
      (none, ⟨none, none⟩) :=
  (c4_converse_failure_semantics (fun _ => false) [.OK]).2
    (fun _ _ => rfl)

/-- C2 counterexample: a response that satisfies the armed predicate is
claimed by the Conversation, yet it is still delivered to the broadcast
subscriber — the claim's "never also delivered to any broadcast
subscriber" is false. -/
theorem c2_claimed_still_broadcast_counterexample :
    ((Conversation.mk (some (fun _ => true)) none).send .OK).1 = true ∧
    ((broadcastResponse ⟨some (fun _ => true), none⟩
        [⟨fun _ => true, []⟩] .OK).2.map Subscriber.received) = [[.OK]] := by
  exact ⟨rfl, rfl⟩

/-- C2 (amended): `AtChannel::broadcastResponse` first offers the
response to the Conversation, then fans it out to every currently
registered subscriber exactly once whether or not it was claimed
(the fan-out result does not depend on the conversation state at all);
subscribers whose sink returns false are pruned, and every surviving
subscriber is an original subscriber extended by exactly this one
response. -/
theorem c2_broadcast_always_fans_out :
    ∀ (cv cv' : Conversation) (subs : List Subscriber) (r : AtResponse),
      (broadcastResponse cv subs r).2 = (broadcastResponse cv' subs r).2 ∧
      (broadcastResponse cv subs r).1 = (cv.send r).2 ∧
      (∀ t ∈ (broadcastResponse cv subs r).2,
        ∃ s ∈ subs, s.keep r = true ∧ t = notifySubscriber r s) ∧
      (∀ s ∈ subs, s.keep r = true →
        notifySubscriber r s ∈ (broadcastResponse cv subs r).2) := by
  intro cv cv' subs r
  refine ⟨rfl, rfl, ?_, ?_⟩
  · intro t ht
    simp only [broadcastResponse, List.mem_filter, List.mem_map] at ht
    obtain ⟨⟨s, hs, rfl⟩, hkeep⟩ := ht
    exact ⟨s, hs, by simpa [notifySubscriber] using hkeep, rfl⟩
  · intro s hs hk
    simp only [broadcastResponse, List.mem_filter, List.mem_map]
    exact ⟨⟨s, hs, rfl⟩, by simpa [notifySubscriber] using hk⟩

/-- C2 witness: an always-keeping subscriber receives the broadcast
response even while a claiming conversation is armed. -/
theorem c2_witness :
    notifySubscriber .OK ⟨fun _ => true, []⟩ ∈
      (broadcastResponse ⟨some (fun _ => true), none⟩
        [⟨fun _ => true, []⟩] .OK).2 :=
  (c2_broadcast_always_fans_out ⟨some (fun _ => true), none⟩ ⟨none, none⟩
      [⟨fun _ => true, []⟩] .OK).2.2.2
    ⟨fun _ => true, []⟩ (by simp) rfl

/-! ## IdAllocator lemmas -/

/-- In a strictly descending list the last element is the minimum. -/
theorem sortedDesc_getLast_le :
    ∀ (l : List Int), l.Sorted (· > ·) → ∀ (hne : l ≠ []) (x), x ∈ l →
      l.getLast hne ≤ x := by
  intro l
  induction l with
  | nil => intro _ hne; exact absurd rfl hne
  | cons a t ih =>
    intro hs hne x hx
    rcases t with _ | ⟨b, t'⟩
    · have hxa : x = a := by simpa using hx
      simp [hxa, List.getLast]
    · have hpair := List.sorted_cons.mp hs
      have ht : (b :: t') ≠ [] := by simp
      have hlast : (a :: b :: t').getLast hne = (b :: t').getLast ht :=
        List.getLast_cons ht
      rw [hlast]
      rcases List.mem_cons.mp hx with hxa | hx'
      · have h1 : (b :: t').getLast ht ≤ b := ih hpair.2 ht b (by simp)
        have h2 : b < a := hpair.1 b (by simp)
        rw [hxa]
        exact le_trans h1 (le_of_lt h2)
      · exact ih hpair.2 ht x hx'

/-- Membership after `insertDesc`. -/
theorem mem_insertDesc (id : Int) :
    ∀ (l : List Int) (x : Int), x ∈ insertDesc id l ↔ (x ∈ l ∨ x = id) := by
  intro l
  induction l with
  | nil => intro x; simp [insertDesc]
  | cons a t ih =>
    intro x
    by_cases h1 : id > a
    · simp [insertDesc, h1]
      tauto
    · by_cases h2 : id = a
      · subst h2
        simp [insertDesc, h1]
        tauto
      · simp [insertDesc, h1, h2, ih]
        tauto

/-- Full characterisation of the `put` compaction loop: it removes the
maximal prefix of the descending list that counts down contiguously from
`g`, decrementing `g` past it. -/
theorem compactTail_spec :
    ∀ (l : List Int) (g : Int),
      ∃ k, k ≤ l.length ∧ compactTail l g = (l.drop k, g - k) ∧
        (∀ i < k, l.getD i 0 = g - i) ∧
        (k = l.length ∨ l.getD k 0 ≠ g - k) := by
  intro l
  induction l with
  | nil =>
    intro g
    refine ⟨0, by simp, ?_, by omega, by simp⟩
    simp [compactTail]
  | cons x xs ih =>
    intro g
    by_cases hx : x = g
    · obtain ⟨k, hk1, hk2, hk3, hk4⟩ := ih (g - 1)
      refine ⟨k + 1, by simpa using hk1, ?_, ?_, ?_⟩
      · rw [show compactTail (x :: xs) g = compactTail xs (g - 1) by
             simp [compactTail, hx], hk2]
        rw [List.drop_succ_cons]
        congr 1
        push_cast
        omega
      · intro i hi
        rcases i with _ | i
        · simpa using hx
        · have := hk3 i (by omega)
          rw [List.getD_cons_succ]
          rw [this]
          push_cast
          omega
      · rcases hk4 with h | h
        · left
          simp [h]
        · right
          rw [List.getD_cons_succ]
          intro hc
          apply h
          rw [hc]
          push_cast
          omega
    · refine ⟨0, by simp, ?_, by omega, ?_⟩
      · simp [compactTail, hx]
      · right
        simpa using hx

/-- C7: `IdAllocator::get` hands out `counter + 1` when nothing was
freed, and otherwise reissues the smallest freed id, removing it and
leaving the counter alone; `IdAllocator::put` of the most recently
issued id decrements the counter past the maximal run of consecutive
freed ids (removing exactly that run), while `put` of any other id just
adds it to the freed set. -/
theorem c7_idallocator_semantics :
    ∀ (a : IdAllocator) (id : Int),
      (a.returnedIds = [] →
        a.get = (a.idGenerator + 1, ⟨a.returnedIds, a.idGenerator + 1⟩)) ∧
      (a.returnedIds.Sorted (· > ·) → a.returnedIds ≠ [] →
        (a.get).2.returnedIds ++ [(a.get).1] = a.returnedIds ∧
        (∀ x ∈ a.returnedIds, (a.get).1 ≤ x) ∧
        (a.get).2.idGenerator = a.idGenerator) ∧
      (id ≠ a.idGenerator →
        (a.put id).idGenerator = a.idGenerator ∧
        ∀ x, x ∈ (a.put id).returnedIds ↔
          (x ∈ a.returnedIds ∨ x = id)) ∧
      (id = a.idGenerator →
        ∃ k, (a.put id).returnedIds = a.returnedIds.drop k ∧
          (a.put id).idGenerator = a.idGenerator - 1 - k ∧
          (∀ i < k, a.returnedIds.getD i 0 = a.idGenerator - 1 - i) ∧
          (k = a.returnedIds.length ∨
            a.returnedIds.getD k 0 ≠ a.idGenerator - 1 - k)) := by
  intro a id
  refine ⟨?_, ?_, ?_, ?_⟩
  · intro h
    simp [IdAllocator.get, h]
  · intro hs hne
    have hlast : a.returnedIds.getLast? =
        some (a.returnedIds.getLast hne) := List.getLast?_eq_getLast _ hne
    constructor
    · simp only [IdAllocator.get, hlast]
      exact List.dropLast_append_getLast hne
    · constructor
      · intro x hx
        simp only [IdAllocator.get, hlast]
        exact sortedDesc_getLast_le a.returnedIds hs hne x hx
      · simp only [IdAllocator.get, hlast]
  · intro h
    constructor
    · simp [IdAllocator.put, h]
    · intro x
      simp [IdAllocator.put, h, mem_insertDesc]
  · intro h
    obtain ⟨k, hk1, hk2, hk3, hk4⟩ :=
      compactTail_spec a.returnedIds (a.idGenerator - 1)
    refine ⟨k, ?_, ?_, ?_, ?_⟩
    · simp [IdAllocator.put, h, hk2]
    · simp only [IdAllocator.put, h, if_pos, hk2]
    · intro i hi
      exact hk3 i hi
    · rcases hk4 with hl | hr
      · exact Or.inl hl
      · exact Or.inr hr

/-- C7 witness: the theorem applied to the empty allocator. -/
theorem c7_witness :
    IdAllocator.get ⟨[], 5⟩ = (6, ⟨[], 6⟩) :=
  (c7_idallocator_semantics ⟨[], 5⟩ 0).1 rfl

set_option linter.unnecessarySeqFocus false in
set_option maxHeartbeats 1000000 in
/-- C10: for every variant type with an identifying tag `id()`,
`holds<T>` is true exactly when the response holds a `T` or holds a
`ParseError` whose `cmd` equals `T::id()`; for the specialized `OK`,
`SmsPrompt` and generic-string alternatives it is true only when that
exact alternative is active. -/
theorem c10_holds_spec :
    ∀ (k : RespKind) (r : AtResponse),
      (∀ s, kindId k = some s →
        (holds k r = true ↔ (activeKind r = k ∨ r = .ParseError s))) ∧
      (holds .okK r = true ↔ activeKind r = .okK) ∧
      (holds .smsPromptK r = true ↔ activeKind r = .smsPromptK) ∧
      (holds .strK r = true ↔ activeKind r = .strK) := by
  intro k r
  refine ⟨?_, ?_, ?_, ?_⟩
  · intro s hs
    cases k <;> simp only [kindId, Option.some.injEq, reduceCtorEq] at hs <;>
      subst hs <;> (cases r <;> simp [holds, activeKind, cs] <;>
        (try simp [kindId, cs]))
  · cases r <;> simp [holds, activeKind]
  · cases r <;> simp [holds, activeKind]
  · cases r <;> simp [holds, activeKind]

/-- C10 witness: `holds<CLCC>` is true on a `ParseError` carrying the
`CLCC` tag. -/
theorem c10_witness :
    holds .clccK (.ParseError (cs ("CLCC"))) = true :=
  ((c10_holds_spec .clccK (.ParseError (cs ("CLCC")))).1
    (cs ("CLCC")) rfl).mpr (Or.inr rfl)

end GoldfishRadio
